import Mathlib

/-!
Ultrasonic radar scan-and-alarm engine (`ultrasonic_radar.c`)

A shallow embedding of the radar core: the alarm evaluator `Get_AlarmState`,
the distance filter and sweep of `Radar_ScanTask`, the key handler of
`Key_ScanTask` and the remote command handler `MQTT_SubCallback`.

Conventions of the embedding:
* `float` distances are exact rationals (`0.7f` is `7/10`, `0.3f` is `3/10`);
* `uint8_t`, `uint16_t` and `uint32_t` values are naturals reduced modulo
  `2^8`, `2^16` and `2^32` where the C arithmetic can wrap;
* each loop body (one scan cycle, one key poll, one callback) is one function
  from the state before to the state after, together with the calls it made to
  the hardware collaborators, in program order.
-/

namespace Radar

/-! ## Configuration constants -/

def SCAN_START_ANGLE : Nat := 0
def SCAN_END_ANGLE : Nat := 180
def SCAN_STEP_ANGLE : Nat := 5
def WARNING_DISTANCE_CM : ℚ := 30
def ALARM_DISTANCE_CM : ℚ := 10

/-- Number of values of a `uint8_t`. -/
def U8 : Nat := 256
/-- Number of values of a `uint16_t`. -/
def U16 : Nat := 65536
/-- Number of values of a `uint32_t`. -/
def U32 : Nat := 4294967296

/-! ## Data structures -/

inductive SystemState_t where
  | SYSTEM_SCANNING
  | SYSTEM_STOPPED
  | SYSTEM_ALARM
deriving DecidableEq, Repr

inductive AlarmState_t where
  | ALARM_SAFE
  | ALARM_WARNING
  | ALARM_DANGER
deriving DecidableEq, Repr

open SystemState_t AlarmState_t

structure RadarData_t where
  distance : ℚ
  angle : Nat
  alarmState : AlarmState_t
  sysState : SystemState_t
deriving DecidableEq, Repr

/-- Calls made to the collaborators, recorded in program order. -/
inductive Effect where
  | set_sg90_angle (angle : Nat)
  | sr04_read_distance
  | Alarm_Control (state : AlarmState_t)
  | osMessageQueuePut (sendData : RadarData_t)
deriving DecidableEq, Repr

/-- The globals of `ultrasonic_radar.c`, the locals `currentAngle` and
`direction` of `Radar_ScanTask`, and the static `lastPressTime` of
`Key_ScanTask`. `g_scanEnabled` only ever holds 0 or 1 and is only tested for
being non-zero, so it is a `Bool`. -/
structure RadarState where
  g_systemState : SystemState_t
  g_alarmState : AlarmState_t
  g_currentAngle : Nat
  g_currentDistance : ℚ
  g_scanEnabled : Bool
  g_distanceUpdateCounter : Nat
  currentAngle : Nat
  direction : Int
  lastPressTime : Nat
deriving DecidableEq, Repr

/-- State after one loop body, with the collaborator calls it made. -/
structure Outcome where
  state : RadarState
  effects : List Effect
deriving DecidableEq, Repr

/-- Initial values of the globals (lines 88-93), of the scan cursor
(lines 270-271) and of `lastPressTime` (line 225). -/
def initState : RadarState :=
  { g_systemState := SYSTEM_SCANNING
    g_alarmState := ALARM_SAFE
    g_currentAngle := 90
    g_currentDistance := 0
    g_scanEnabled := true
    g_distanceUpdateCounter := 0
    currentAngle := 90
    direction := 1
    lastPressTime := 0 }

/-! ## Alarm evaluator -/

/-- `Get_AlarmState` (lines 169-179). -/
def Get_AlarmState (distance : ℚ) : AlarmState_t :=
  if distance ≤ 0 ∨ distance > 400 then ALARM_SAFE
  else if distance ≤ ALARM_DISTANCE_CM then ALARM_DANGER
  else if distance ≤ WARNING_DISTANCE_CM then ALARM_WARNING
  else ALARM_SAFE

/-! ## Distance filter -/

/-- The filter block of `Radar_ScanTask` (lines 313-331) with distances taken
as exact numbers: the new value of `g_currentDistance` from the raw reading
and the previous value. The single-precision arithmetic of the source is
`filterDistance32`. -/
def filterDistance (rawDist g_currentDistance : ℚ) : ℚ :=
  if rawDist ≥ 0 then
    let validDist :=
      if rawDist ≤ 0 ∨ rawDist ≥ 400 then g_currentDistance
      else if g_currentDistance > 0 ∧
          (rawDist > g_currentDistance + 50 ∨ rawDist < g_currentDistance - 50) then
        g_currentDistance
      else rawDist
    if g_currentDistance = 0 then validDist
    else g_currentDistance * (7 / 10) + validDist * (3 / 10)
  else g_currentDistance

/-! ## Sweep -/

/-- The angle stepping of `Radar_ScanTask` (lines 357-374) on the `uint16_t`
angle and the `int8_t` direction. -/
def stepAngle (currentAngle : Nat) (direction : Int) : Nat × Int :=
  if direction > 0 then
    let a := (currentAngle + SCAN_STEP_ANGLE) % U16
    if a ≥ SCAN_END_ANGLE then (SCAN_END_ANGLE, -1) else (a, direction)
  else
    let a := (currentAngle + U16 - SCAN_STEP_ANGLE) % U16
    if a ≤ SCAN_START_ANGLE then (SCAN_START_ANGLE, 1) else (a, direction)

/-! ## Scan task -/

/-- One pass through the loop body of `Radar_ScanTask` (lines 279-376), taken
as one atomic step: no other task runs between the test of line 280 and the
re-test of line 300, so both see the same `g_scanEnabled`, and `g_dataQueue`
has been created (line 130). `sensor` is what `sr04_read_distance` returns if
it is called. The pass with other tasks running in between, and with the
`g_dataQueue != NULL` guard of line 344, is `Radar_ScanPass`. -/
def Radar_ScanCycle (sensor : ℚ) (s : RadarState) : Outcome :=
  if !s.g_scanEnabled then ⟨s, []⟩
  else
    let act := [Effect.set_sg90_angle s.currentAngle]
    let pre : ℚ × List Effect :=
      if s.g_distanceUpdateCounter ≥ 9 then (sensor, [Effect.sr04_read_distance])
      else (-1, [])
    let rawDist := pre.1
    if !s.g_scanEnabled then ⟨s, act ++ pre.2⟩
    else
      let counter := (s.g_distanceUpdateCounter + 1) % U8
      let s1 : RadarState :=
        { s with g_currentAngle := s.currentAngle, g_distanceUpdateCounter := counter }
      let upd : Outcome :=
        if counter ≥ 10 then
          let dist := filterDistance rawDist s1.g_currentDistance
          let alarm := Get_AlarmState dist
          let sys := if alarm = ALARM_DANGER then SYSTEM_ALARM else SYSTEM_SCANNING
          let sendData : RadarData_t :=
            { distance := dist, angle := s.currentAngle, alarmState := alarm, sysState := sys }
          ⟨{ s1 with g_currentDistance := dist, g_distanceUpdateCounter := 0,
                     g_alarmState := alarm, g_systemState := sys },
            [Effect.Alarm_Control alarm, Effect.osMessageQueuePut sendData]⟩
        else ⟨s1, []⟩
      let next := stepAngle s.currentAngle s.direction
      ⟨{ upd.state with currentAngle := next.1, direction := next.2 },
        act ++ pre.2 ++ upd.effects⟩

/-! ## Key task -/

/-- What `key_scan` returns: 0 when no key is pressed, `KEY1_PRESS`,
`KEY2_PRESS`, or the code of another key. The numeric codes are declared in
`bsp_key.h`; only their being distinct and non-zero is used. -/
inductive KeyValue where
  | NONE
  | KEY1_PRESS
  | KEY2_PRESS
  | OTHER
deriving DecidableEq, Repr

/-- One pass through the loop body of `Key_ScanTask` (lines 228-261);
`currentTime` is the `uint32_t` tick count read at line 231. -/
def Key_ScanStep (keyValue : KeyValue) (currentTime : Nat) (s : RadarState) : Outcome :=
  if keyValue ≠ KeyValue.NONE then
    if (currentTime % U32 + U32 - s.lastPressTime) % U32 > 300 then
      let upd : Outcome :=
        if keyValue = KeyValue.KEY1_PRESS then
          if !s.g_scanEnabled then
            ⟨{ s with g_scanEnabled := true, g_systemState := SYSTEM_SCANNING }, []⟩
          else ⟨s, []⟩
        else if keyValue = KeyValue.KEY2_PRESS then
          if s.g_scanEnabled then
            ⟨{ s with g_scanEnabled := false, g_systemState := SYSTEM_STOPPED },
              [Effect.set_sg90_angle 90]⟩
          else ⟨s, []⟩
        else ⟨s, []⟩
      ⟨{ upd.state with lastPressTime := currentTime % U32 }, upd.effects⟩
    else ⟨s, []⟩
  else ⟨s, []⟩

/-! ## Remote control -/

/-- C `strstr(haystack, needle) != NULL` on the characters before the
terminating NUL: `needle` occurs in `haystack` as a contiguous block. -/
def strstr : List Char → List Char → Bool
  | [], needle => needle.isEmpty
  | c :: cs, needle => needle.isPrefixOf (c :: cs) || strstr cs needle

/-- Result of `MQTT_SubCallback`: the returned `int8_t`, the state after and
the collaborator calls. -/
structure CallbackResult where
  ret : Int
  state : RadarState
  effects : List Effect
deriving DecidableEq, Repr

/-- `MQTT_SubCallback` (lines 487-507). `acquired` tells whether
`osMutexAcquire(g_systemMutex, 100)` obtained the lock; the code discards that
status. -/
def MQTT_SubCallback (topic payload : List Char) (acquired : Bool) (s : RadarState) :
    CallbackResult :=
  if strstr topic "control".toList then
    let _status := acquired
    if strstr payload "STOP".toList then
      ⟨0, { s with g_scanEnabled := false, g_systemState := SYSTEM_STOPPED },
        [Effect.set_sg90_angle 90]⟩
    else if strstr payload "START".toList then
      ⟨0, { s with g_scanEnabled := true, g_systemState := SYSTEM_SCANNING }, []⟩
    else ⟨0, s, []⟩
  else ⟨0, s, []⟩

/-! ## Runs of the system -/

/-- One atomic step of the system: a scan cycle with the given sensor value,
a key poll, or a delivered remote message. -/
inductive Action where
  | scan (sensor : ℚ)
  | key (keyValue : KeyValue) (currentTime : Nat)
  | mqtt (topic payload : List Char) (acquired : Bool)
deriving DecidableEq, Repr

/-- State after one action. -/
def step (s : RadarState) : Action → RadarState
  | Action.scan sensor => (Radar_ScanCycle sensor s).state
  | Action.key keyValue currentTime => (Key_ScanStep keyValue currentTime s).state
  | Action.mqtt topic payload acquired => (MQTT_SubCallback topic payload acquired s).state

/-- State after a sequence of actions, performed in order, from `s`. -/
def runFrom (s : RadarState) (acts : List Action) : RadarState :=
  acts.foldl step s

/-- State after a sequence of actions from the initial state. -/
def run (acts : List Action) : RadarState :=
  runFrom initState acts

/-- Number of scan cycles in `acts`, run from `s`, that start with scanning
enabled. -/
def enabledCycles : RadarState → List Action → Nat
  | _, [] => 0
  | s, Action.scan sensor :: acts =>
      (if s.g_scanEnabled then 1 else 0) + enabledCycles (step s (Action.scan sensor)) acts
  | s, a :: acts => enabledCycles (step s a) acts

/-! ## Data queue -/

/-- Modelled from the spec: the RTOS message queue behind `g_dataQueue`
(`osMessageQueueNew`, `osMessageQueuePut`, `osMessageQueueGet`) is not part of
the sources. Per the spec the queue has exactly one slot. -/
structure MessageQueue where
  slot : Option RadarData_t
deriving DecidableEq, Repr

/-- Modelled from the spec: `osMessageQueueNew(1, sizeof(RadarData_t), NULL)`
(line 130) gives an empty one-slot queue. -/
def osMessageQueueNew : MessageQueue := ⟨none⟩

/-- Modelled from the spec: `osMessageQueuePut` is not part of the sources;
per the spec a publish overwrites any undelivered prior sample. -/
def osMessageQueuePut (q : MessageQueue) (sendData : RadarData_t) : MessageQueue :=
  { q with slot := some sendData }

/-- Modelled from the spec: `osMessageQueueGet` is not part of the sources;
a drain hands over the sample in the slot, if any, and leaves the queue
empty. -/
def osMessageQueueGet (q : MessageQueue) : Option RadarData_t × MessageQueue :=
  (q.slot, { q with slot := none })

/-- The queue after the `osMessageQueuePut` calls among `effects`, in order. -/
def deliver (q : MessageQueue) : List Effect → MessageQueue
  | [] => q
  | Effect.osMessageQueuePut sendData :: es => deliver (osMessageQueuePut q sendData) es
  | _ :: es => deliver q es

/-- The samples handed to `osMessageQueuePut` among `effects`, in order. -/
def published : List Effect → List RadarData_t
  | [] => []
  | Effect.osMessageQueuePut sendData :: es => sendData :: published es
  | _ :: es => published es

/-! ## Facts about the scan cycle -/

/-- A cycle is a sampling cycle when scanning is enabled and the counter has
reached 9 (and, being a `uint8_t`, does not wrap on the increment). -/
def Sampling (s : RadarState) : Prop :=
  s.g_scanEnabled = true ∧ 9 ≤ s.g_distanceUpdateCounter ∧ s.g_distanceUpdateCounter < 255

instance (s : RadarState) : Decidable (Sampling s) := by
  unfold Sampling; infer_instance

/-- State with the given filtered distance at the start of a sampling cycle,
everything else as initially. -/
def samplingState (p : ℚ) : RadarState :=
  { initState with g_currentDistance := p, g_distanceUpdateCounter := 9 }

/-- Scan cursor (angle, direction) after `n` enabled cycles, from angle 90 and
direction +1 (lines 270-271). -/
def sweep : Nat → Nat × Int
  | 0 => (90, 1)
  | n + 1 => stepAngle (sweep n).1 (sweep n).2

/-- Cross-field relation of the shared state that every run maintains:
`SYSTEM_ALARM` only with `ALARM_DANGER`, and `SYSTEM_STOPPED` exactly when
scanning is disabled. -/
def Coherent (s : RadarState) : Prop :=
  (s.g_systemState = SYSTEM_ALARM → s.g_alarmState = ALARM_DANGER) ∧
  (s.g_scanEnabled = false ↔ s.g_systemState = SYSTEM_STOPPED)

/-- Shape of the scan cursor along the sweep: a multiple of 5, at most 175
while going up and between 5 and 180 while going down. -/
def CursorOk (a : Nat) (d : Int) : Prop :=
  a % 5 = 0 ∧ ((d = 1 ∧ a ≤ 175) ∨ (d = -1 ∧ 5 ≤ a ∧ a ≤ 180))

/-- Range of the filtered distance that every run maintains. -/
def DistanceOk (s : RadarState) : Prop :=
  0 ≤ s.g_currentDistance ∧ s.g_currentDistance < 400

/-- Relation between the scan cursor and the sample counter that every run
maintains: the cursor is on the sweep, the counter is below 10, and
`currentAngle / 5 + g_distanceUpdateCounter` is even. -/
def CursorParity (s : RadarState) : Prop :=
  CursorOk s.currentAngle s.direction ∧ s.g_distanceUpdateCounter ≤ 9 ∧
  (s.currentAngle / 5 + s.g_distanceUpdateCounter) % 2 = 0

/-- The topic the task subscribes to, `MQTT_TOPIC_CONTROL` (line 43). -/
def MQTT_TOPIC_CONTROL : List Char := "hi3861/radar/control".toList

/-- The topic the task publishes on, `MQTT_TOPIC_DATA` (line 44). -/
def MQTT_TOPIC_DATA : List Char := "hi3861/radar/data".toList

/-! ## Telemetry -/

/-- Numeric value of a `SystemState_t` (lines 56-61), as printed by `%d`. -/
def SystemState_t.toNat : SystemState_t → Nat
  | SYSTEM_SCANNING => 0
  | SYSTEM_STOPPED => 1
  | SYSTEM_ALARM => 2

/-- The three values formatted into the telemetry payload (lines 604-606):
`angle`, `dist` (printed with one decimal) and `state`. -/
structure Telemetry where
  angle : Nat
  dist : ℚ
  state : Nat
deriving DecidableEq, Repr

/-- One pass of the reporting loop of `WiFi_MQTT_Task` (lines 602-608), taken
as one step: the payload handed to `MQTTClient_pub`, if any. -/
def WiFi_MQTT_Report (s : RadarState) : Option Telemetry :=
  if s.g_scanEnabled then
    some ⟨s.g_currentAngle, s.g_currentDistance, s.g_systemState.toNat⟩
  else none

/-! ## Brightness payload (`实验3/template.c`) -/

/-- The `for` loop of `ParseBrightnessPayload` (lines 101-115) with `n`
iterations left, at index `i`: the values of `value` and `digits` when the
loop is left. The payload is the bytes before the terminating NUL; the byte at
or past the end reads as NUL. -/
def ParseBrightnessPayload_loop (payload : List Char) : Nat → Nat → Int → Int → Int × Int
  | 0, _, value, digits => (value, digits)
  | n + 1, i, value, digits =>
    let c : Int := ((payload.getD i (Char.ofNat 0)).toNat : Int)
    if c < ('0'.toNat : Int) ∨ c > ('9'.toNat : Int) then (value, digits)
    else
      let value1 := value * 10 + (c - ('0'.toNat : Int))
      let digits1 := digits + 1
      if value1 > 100 then (100, digits1)
      else ParseBrightnessPayload_loop payload n (i + 1) value1 digits1

/-- `ParseBrightnessPayload` (lines 94-123); `none` is the NULL pointer. -/
def ParseBrightnessPayload (payload : Option (List Char)) : Int :=
  match payload with
  | none => -1
  | some p =>
    let r := ParseBrightnessPayload_loop p 4 0 0 0
    if r.2 = 0 then -1
    else
      let value := if r.1 < 0 then 0 else r.1
      if value > 100 then 100 else value

/-! ## Interleaved scan pass -/

/-- What another task does to the shared state while the scan task sleeps or
waits: a key poll of `Key_ScanTask` or a message handled by
`MQTT_SubCallback`. -/
inductive Control where
  | key (keyValue : KeyValue) (currentTime : Nat)
  | mqtt (topic payload : List Char) (acquired : Bool)
deriving DecidableEq, Repr

/-- A control event as an action of a run. -/
def Control.toAction : Control → Action
  | Control.key keyValue currentTime => Action.key keyValue currentTime
  | Control.mqtt topic payload acquired => Action.mqtt topic payload acquired

/-- One pass through the loop body of `Radar_ScanTask` (lines 279-376) with
the other tasks running in between: `during` are the key polls and remote
messages handled after the test of line 280 and before the lock is taken at
line 298 (during the 20 ms sleep of line 288); `queueCreated` is
`g_dataQueue != NULL` (line 344). The effects are the calls of the scan task
itself. -/
def Radar_ScanPass (sensor : ℚ) (during : List Control) (queueCreated : Bool)
    (s : RadarState) : Outcome :=
  if !s.g_scanEnabled then ⟨s, []⟩
  else
    let act := [Effect.set_sg90_angle s.currentAngle]
    let s0 := runFrom s (during.map Control.toAction)
    let pre : ℚ × List Effect :=
      if s0.g_distanceUpdateCounter ≥ 9 then (sensor, [Effect.sr04_read_distance])
      else (-1, [])
    let rawDist := pre.1
    if !s0.g_scanEnabled then ⟨s0, act ++ pre.2⟩
    else
      let counter := (s0.g_distanceUpdateCounter + 1) % U8
      let s1 : RadarState :=
        { s0 with g_currentAngle := s0.currentAngle, g_distanceUpdateCounter := counter }
      let upd : Outcome :=
        if counter ≥ 10 then
          let dist := filterDistance rawDist s1.g_currentDistance
          let alarm := Get_AlarmState dist
          let sys := if alarm = ALARM_DANGER then SYSTEM_ALARM else SYSTEM_SCANNING
          let sendData : RadarData_t :=
            { distance := dist, angle := s0.currentAngle, alarmState := alarm, sysState := sys }
          ⟨{ s1 with g_currentDistance := dist, g_distanceUpdateCounter := 0,
                     g_alarmState := alarm, g_systemState := sys },
            [Effect.Alarm_Control alarm] ++
              (if queueCreated then [Effect.osMessageQueuePut sendData] else [])⟩
        else ⟨s1, []⟩
      let next := stepAngle s0.currentAngle s0.direction
      ⟨{ upd.state with currentAngle := next.1, direction := next.2 },
        act ++ pre.2 ++ upd.effects⟩

/-! ## Single-precision filter -/

/-- Number of binary digits of `n`; `fuel` bounds the recursion and `n` itself
is always enough. -/
def bitLength : Nat → Nat → Nat
  | 0, _ => 0
  | fuel + 1, n => if n = 0 then 0 else bitLength fuel (n / 2) + 1

/-- The integer `e` with `2^e ≤ n / d < 2^(e+1)`, for positive `n` and `d`. -/
def floorLog2 (n d : Nat) : Int :=
  let e0 : Int := (bitLength n n : Int) - (bitLength d d : Int)
  if (if e0 ≥ 0 then d * 2 ^ e0.toNat ≤ n else d ≤ n * 2 ^ (-e0).toNat) then e0
  else e0 - 1

/-- The integer nearest to `n / d`, a tie going to the even one. -/
def roundHalfEven (n d : Nat) : Nat :=
  if 2 * (n % d) < d then n / d
  else if 2 * (n % d) > d then n / d + 1
  else if (n / d) % 2 = 0 then n / d
  else n / d + 1

/-- Rounding of an exact number to IEEE 754 binary32 (C `float`), to nearest
with ties to even: 24 significant bits, the spacing never below `2^-149`.
Overflow to infinity is not represented; the numbers rounded in this file
are far below `2^128`. -/
def fl32 (x : ℚ) : ℚ :=
  if x = 0 then 0
  else
    let n := x.num.natAbs
    let d := x.den
    let q : Int := max (floorLog2 n d - 23) (-149)
    let a : ℚ :=
      if q ≥ 0 then ((roundHalfEven n (d * 2 ^ q.toNat) * 2 ^ q.toNat : Nat) : ℚ)
      else ((roundHalfEven (n * 2 ^ (-q).toNat) d : Nat) : ℚ) / ((2 ^ (-q).toNat : Nat) : ℚ)
    if x < 0 then -a else a

/-- Line 330 in single precision: `g_currentDistance * 0.7f + validDist * 0.3f`,
each constant, product and the sum rounded to `float`. -/
def blend32 (g_currentDistance validDist : ℚ) : ℚ :=
  fl32 (fl32 (g_currentDistance * fl32 (7 / 10)) + fl32 (validDist * fl32 (3 / 10)))

/-- The filter block of `Radar_ScanTask` (lines 313-331) in single precision,
on `float` values given as the exact numbers they stand for: the sums
`g_currentDistance + 50` and `g_currentDistance - 50` of line 322 and the blend
of line 330 are rounded. -/
def filterDistance32 (rawDist g_currentDistance : ℚ) : ℚ :=
  if rawDist ≥ 0 then
    let validDist :=
      if rawDist ≤ 0 ∨ rawDist ≥ 400 then g_currentDistance
      else if g_currentDistance > 0 ∧
          (rawDist > fl32 (g_currentDistance + 50) ∨
            rawDist < fl32 (g_currentDistance - 50)) then
        g_currentDistance
      else rawDist
    if g_currentDistance = 0 then validDist
    else blend32 g_currentDistance validDist
  else g_currentDistance

theorem scanCycle_sampling (sensor : ℚ) (s : RadarState) (h : Sampling s) :
    Radar_ScanCycle sensor s =
      ⟨{ s with
          g_currentAngle := s.currentAngle
          g_currentDistance := filterDistance sensor s.g_currentDistance
          g_distanceUpdateCounter := 0
          g_alarmState := Get_AlarmState (filterDistance sensor s.g_currentDistance)
          g_systemState :=
            if Get_AlarmState (filterDistance sensor s.g_currentDistance) = ALARM_DANGER
            then SYSTEM_ALARM else SYSTEM_SCANNING
          currentAngle := (stepAngle s.currentAngle s.direction).1
          direction := (stepAngle s.currentAngle s.direction).2 },
        [Effect.set_sg90_angle s.currentAngle, Effect.sr04_read_distance,
          Effect.Alarm_Control (Get_AlarmState (filterDistance sensor s.g_currentDistance)),
          Effect.osMessageQueuePut
            { distance := filterDistance sensor s.g_currentDistance
              angle := s.currentAngle
              alarmState := Get_AlarmState (filterDistance sensor s.g_currentDistance)
              sysState :=
                if Get_AlarmState (filterDistance sensor s.g_currentDistance) = ALARM_DANGER
                then SYSTEM_ALARM else SYSTEM_SCANNING }]⟩ := by
  obtain ⟨hen, h9, h255⟩ := h
  have hmod : (s.g_distanceUpdateCounter + 1) % U8 = s.g_distanceUpdateCounter + 1 := by
    apply Nat.mod_eq_of_lt; unfold U8; omega
  have h10 : 10 ≤ s.g_distanceUpdateCounter + 1 := by omega
  simp [Radar_ScanCycle, hen, h9, hmod, h10]

theorem scanCycle_quiet (sensor : ℚ) (s : RadarState) (hen : s.g_scanEnabled = true)
    (h : s.g_distanceUpdateCounter < 9) :
    Radar_ScanCycle sensor s =
      ⟨{ s with
          g_currentAngle := s.currentAngle
          g_distanceUpdateCounter := s.g_distanceUpdateCounter + 1
          currentAngle := (stepAngle s.currentAngle s.direction).1
          direction := (stepAngle s.currentAngle s.direction).2 },
        [Effect.set_sg90_angle s.currentAngle]⟩ := by
  have hmod : (s.g_distanceUpdateCounter + 1) % U8 = s.g_distanceUpdateCounter + 1 := by
    apply Nat.mod_eq_of_lt; unfold U8; omega
  have h9 : ¬ 9 ≤ s.g_distanceUpdateCounter := by omega
  have h10 : ¬ 10 ≤ s.g_distanceUpdateCounter + 1 := by omega
  simp [Radar_ScanCycle, hen, h9, hmod, h10]

theorem scanCycle_disabled (sensor : ℚ) (s : RadarState) (hen : s.g_scanEnabled = false) :
    Radar_ScanCycle sensor s = ⟨s, []⟩ := by
  simp [Radar_ScanCycle, hen]

/-! ## Alarm thresholds -/

/-- C1: `Get_AlarmState d` is Safe when `d ≤ 0` or `d > 400`, Danger when
`0 < d ≤ 10`, Warning when `10 < d ≤ 30` and Safe when `30 < d ≤ 400`; 10 gives
Danger, 10.01 Warning, 30 Warning, 30.01 Safe, 0 Safe and 500 Safe. -/
theorem Get_AlarmState_thresholds (d : ℚ) :
    ((d ≤ 0 ∨ d > 400) → Get_AlarmState d = ALARM_SAFE) ∧
    ((0 < d ∧ d ≤ 10) → Get_AlarmState d = ALARM_DANGER) ∧
    ((10 < d ∧ d ≤ 30) → Get_AlarmState d = ALARM_WARNING) ∧
    ((30 < d ∧ d ≤ 400) → Get_AlarmState d = ALARM_SAFE) ∧
    Get_AlarmState 10 = ALARM_DANGER ∧
    Get_AlarmState (1001 / 100) = ALARM_WARNING ∧
    Get_AlarmState 30 = ALARM_WARNING ∧
    Get_AlarmState (3001 / 100) = ALARM_SAFE ∧
    Get_AlarmState 0 = ALARM_SAFE ∧
    Get_AlarmState 500 = ALARM_SAFE := by
  refine ⟨?_, ?_, ?_, ?_, ?_, ?_, ?_, ?_, ?_, ?_⟩
  · intro h
    simp [Get_AlarmState, h]
  · rintro ⟨h0, h10⟩
    have h1 : ¬ (d ≤ 0 ∨ d > 400) := by
      rintro (h | h) <;> linarith
    simp only [Get_AlarmState, ALARM_DISTANCE_CM, if_neg h1, if_pos h10]
  · rintro ⟨h10, h30⟩
    have h1 : ¬ (d ≤ 0 ∨ d > 400) := by
      rintro (h | h) <;> linarith
    have h2 : ¬ d ≤ 10 := by linarith
    simp only [Get_AlarmState, ALARM_DISTANCE_CM, WARNING_DISTANCE_CM, if_neg h1, if_neg h2,
      if_pos h30]
  · rintro ⟨h30, h400⟩
    have h1 : ¬ (d ≤ 0 ∨ d > 400) := by
      rintro (h | h) <;> linarith
    have h2 : ¬ d ≤ 10 := by linarith
    have h3 : ¬ d ≤ 30 := by linarith
    simp only [Get_AlarmState, ALARM_DISTANCE_CM, WARNING_DISTANCE_CM, if_neg h1, if_neg h2,
      if_neg h3]
  all_goals (simp only [Get_AlarmState, ALARM_DISTANCE_CM, WARNING_DISTANCE_CM]; norm_num)

/-- For C1, the ranges at concrete distances: 5 is Danger, 20 Warning, 100 and
-1 Safe. -/
theorem Get_AlarmState_thresholds_witness :
    Get_AlarmState (-1) = ALARM_SAFE ∧ Get_AlarmState 5 = ALARM_DANGER ∧
    Get_AlarmState 20 = ALARM_WARNING ∧ Get_AlarmState 100 = ALARM_SAFE :=
  ⟨(Get_AlarmState_thresholds (-1)).1 (Or.inl (by norm_num)),
   (Get_AlarmState_thresholds 5).2.1 ⟨by norm_num, by norm_num⟩,
   (Get_AlarmState_thresholds 20).2.2.1 ⟨by norm_num, by norm_num⟩,
   (Get_AlarmState_thresholds 100).2.2.2.1 ⟨by norm_num, by norm_num⟩⟩

/-! ## Distance filter -/

/-- C2: on a sampling cycle with a valid raw reading `r` (`0 < r < 400`) and a
previous filtered value `p ≥ 0` with `p = 0` or `|r - p| ≤ 50`, the new
filtered distance is `r` when `p = 0` and `p * 0.7 + r * 0.3` otherwise; with
`p = 100` and `r = 110` it is 103. -/
theorem filter_smooths (s : RadarState) (r : ℚ) (hs : Sampling s)
    (hr : 0 < r ∧ r < 400) (_hp : 0 ≤ s.g_currentDistance)
    (hj : s.g_currentDistance = 0 ∨ |r - s.g_currentDistance| ≤ 50) :
    (Radar_ScanCycle r s).state.g_currentDistance =
        (if s.g_currentDistance = 0 then r
         else s.g_currentDistance * (7 / 10) + r * (3 / 10)) ∧
      filterDistance r s.g_currentDistance =
        (if s.g_currentDistance = 0 then r
         else s.g_currentDistance * (7 / 10) + r * (3 / 10)) ∧
      filterDistance 110 100 = 103 := by
  have key : filterDistance r s.g_currentDistance =
      (if s.g_currentDistance = 0 then r
       else s.g_currentDistance * (7 / 10) + r * (3 / 10)) := by
    obtain ⟨hr0, hr400⟩ := hr
    have h1 : r ≥ 0 := le_of_lt hr0
    have h2 : ¬ (r ≤ 0 ∨ r ≥ 400) := by
      rintro (h | h) <;> linarith
    have h3 : ¬ (s.g_currentDistance > 0 ∧
        (r > s.g_currentDistance + 50 ∨ r < s.g_currentDistance - 50)) := by
      rintro ⟨hpos, hjump⟩
      rcases hj with hj | hj
      · linarith
      · have := abs_le.mp hj
        rcases hjump with h | h <;> linarith
    simp only [filterDistance, if_pos h1, if_neg h2, if_neg h3]
  refine ⟨?_, key, ?_⟩
  · rw [scanCycle_sampling r s hs]
    exact key
  · simp only [filterDistance]; norm_num

/-- For C2: from filtered distance 100 a reading of 110 gives 103. -/
theorem filter_smooths_witness :
    (Radar_ScanCycle 110 (samplingState 100)).state.g_currentDistance = 103 := by
  have h := (filter_smooths (samplingState 100) 110 (by decide) (by norm_num)
    (by norm_num [samplingState]) (by right; norm_num [samplingState, abs_le])).1
  rw [h]
  norm_num [samplingState]

/-- Averaging a value with itself gives the value back. -/
theorem blend_self (p : ℚ) : p * (7 / 10) + p * (3 / 10) = p := by ring

/-- The rounding at known `float` values: `0.7f` is `0x3F333333`, `0.3f` is
`0x3E99999A`, `1.9f` is `0x3FF33333`; 100 and 400 are exact; `2^24 + 1` is a
tie and goes to the even neighbour `2^24`, `2^24 + 3` to `2^24 + 4`; the two
constants add up to exactly 1. -/
theorem fl32_values :
    fl32 (7 / 10) = 11744051 / 16777216 ∧
    fl32 (3 / 10) = 10066330 / 33554432 ∧
    fl32 (19 / 10) = 15938355 / 8388608 ∧
    fl32 100 = 100 ∧ fl32 400 = 400 ∧
    fl32 16777217 = 16777216 ∧ fl32 16777219 = 16777220 ∧
    fl32 (-19 / 10) = -(15938355 / 8388608) ∧
    fl32 (7 / 10) + fl32 (3 / 10) = 1 := by
  decide!

/-- C3 fails as stated on the single-precision code. With `p = 1048579/1048576`
and `r = 13369345/262144`, both `float` values with `0 < r < 400` and
`|r - p| > 50`, the rounded sum `p + 50` equals `r`, so the test of line 322 is
false and the reading is averaged in: the result is `4194305/262144`, about
16.0000038, not `p`. And a reading that is rejected is still blended: with
`p = 1.9f` and `r = 100` the stored value is `7969177/4194304`, one unit in
the last place below `p`. -/
theorem filter_rejects_jump_counterexample :
    fl32 (1048579 / 1048576) = 1048579 / 1048576 ∧
    fl32 (13369345 / 262144) = 13369345 / 262144 ∧
    (0 : ℚ) < 13369345 / 262144 ∧ (13369345 / 262144 : ℚ) < 400 ∧
    |(13369345 / 262144 : ℚ) - 1048579 / 1048576| > 50 ∧
    fl32 (1048579 / 1048576 + 50) = 13369345 / 262144 ∧
    filterDistance32 (13369345 / 262144) (1048579 / 1048576) = 4194305 / 262144 ∧
    filterDistance32 (13369345 / 262144) (1048579 / 1048576) ≠ 1048579 / 1048576 ∧
    fl32 (19 / 10) = 15938355 / 8388608 ∧
    (0 : ℚ) < fl32 (19 / 10) ∧
    |(100 : ℚ) - fl32 (19 / 10)| > 50 ∧
    filterDistance32 100 (fl32 (19 / 10)) = 7969177 / 4194304 ∧
    filterDistance32 100 (fl32 (19 / 10)) ≠ fl32 (19 / 10) := by
  refine ⟨by decide!, by decide!, by norm_num, by norm_num, ?_, by decide!, by decide!,
    by decide!, by decide!, by decide!, ?_, by decide!, by decide!⟩
  · rw [gt_iff_lt, lt_abs]; left; norm_num
  · have h : fl32 (19 / 10) = 15938355 / 8388608 := by decide!
    rw [h, gt_iff_lt, lt_abs]; left; norm_num

/-- C3 as amended: with distances taken as exact numbers, on a sampling cycle
with previous filtered value `p > 0` and a valid raw reading `r`
(`0 < r < 400`) with `|r - p| > 50`, the reading is rejected and the filtered
distance stays `p` (the code stores `p * 0.7 + p * 0.3`); with `p = 100` and
`r = 200` it stays 100. In single precision, whenever the test of line 322
(`r > p + 50` or `r < p - 50`, the sums rounded) holds, the stored value is
the rounded blend of `p` with itself. -/
theorem filter_rejects_jump (s : RadarState) (r : ℚ) (hs : Sampling s)
    (hp : 0 < s.g_currentDistance) (hr : 0 < r ∧ r < 400)
    (hj : |r - s.g_currentDistance| > 50) :
    (Radar_ScanCycle r s).state.g_currentDistance = s.g_currentDistance ∧
      filterDistance r s.g_currentDistance = s.g_currentDistance ∧
      filterDistance 200 100 = 100 ∧
      (∀ p x : ℚ, 0 < p → 0 < x ∧ x < 400 →
        (x > fl32 (p + 50) ∨ x < fl32 (p - 50)) →
        filterDistance32 x p = blend32 p p) ∧
      (∀ p : ℚ, p * (7 / 10) + p * (3 / 10) = p) := by
  have h32 : ∀ p x : ℚ, 0 < p → 0 < x ∧ x < 400 →
      (x > fl32 (p + 50) ∨ x < fl32 (p - 50)) → filterDistance32 x p = blend32 p p := by
    intro p x hp0 hx hjump
    have h1 : x ≥ 0 := le_of_lt hx.1
    have h2 : ¬ (x ≤ 0 ∨ x ≥ 400) := by
      rintro (h | h) <;> linarith [hx.1, hx.2]
    have h3 : p > 0 ∧ (x > fl32 (p + 50) ∨ x < fl32 (p - 50)) := ⟨hp0, hjump⟩
    have h4 : ¬ p = 0 := ne_of_gt hp0
    simp only [filterDistance32, if_pos h1, if_neg h2, if_pos h3, if_neg h4]
  suffices hmain : (Radar_ScanCycle r s).state.g_currentDistance = s.g_currentDistance ∧
      filterDistance r s.g_currentDistance = s.g_currentDistance ∧
      filterDistance 200 100 = 100 from
    ⟨hmain.1, hmain.2.1, hmain.2.2, h32, blend_self⟩
  have key : filterDistance r s.g_currentDistance = s.g_currentDistance := by
    obtain ⟨hr0, hr400⟩ := hr
    have h1 : r ≥ 0 := le_of_lt hr0
    have h2 : ¬ (r ≤ 0 ∨ r ≥ 400) := by
      rintro (h | h) <;> linarith
    have h3 : s.g_currentDistance > 0 ∧
        (r > s.g_currentDistance + 50 ∨ r < s.g_currentDistance - 50) := by
      refine ⟨hp, ?_⟩
      rcases lt_abs.mp hj with h | h
      · left; linarith
      · right; linarith
    have h4 : ¬ s.g_currentDistance = 0 := ne_of_gt hp
    simp only [filterDistance, if_pos h1, if_neg h2, if_pos h3, if_neg h4]
    exact blend_self _
  refine ⟨?_, key, ?_⟩
  · rw [scanCycle_sampling r s hs]
    exact key
  · simp only [filterDistance]; norm_num

/-- For C3: from filtered distance 100 a reading of 200 leaves 100. -/
theorem filter_rejects_jump_witness :
    (Radar_ScanCycle 200 (samplingState 100)).state.g_currentDistance = 100 :=
  (filter_rejects_jump (samplingState 100) 200 (by decide) (by norm_num [samplingState])
    (by norm_num) (by norm_num [samplingState, lt_abs])).1

/-- C4 fails as stated on the single-precision code: with `p = 1.9f` a raw
reading of exactly 0, and one of exactly 400, store `p * 0.7f + p * 0.3f`,
which rounds to `7969177/4194304`, one unit in the last place below `p`. -/
theorem filter_retains_on_invalid_counterexample :
    fl32 (19 / 10) = 15938355 / 8388608 ∧ (0 : ℚ) ≤ fl32 (19 / 10) ∧
    filterDistance32 0 (fl32 (19 / 10)) = 7969177 / 4194304 ∧
    filterDistance32 0 (fl32 (19 / 10)) ≠ fl32 (19 / 10) ∧
    filterDistance32 400 (fl32 (19 / 10)) = 7969177 / 4194304 ∧
    filterDistance32 400 (fl32 (19 / 10)) ≠ fl32 (19 / 10) := by
  decide!

/-- C4 as amended: with distances taken as exact numbers, on a sampling cycle
with previous filtered value `p ≥ 0` and a raw reading `r ≤ 0` or `r ≥ 400`,
the filtered distance stays `p`; the cycle completes as usual, evaluating the
alarm on `p` and publishing a sample that carries `p`. In single precision the
stored value is `p` itself when `r < 0` or `p = 0`, and otherwise the rounded
blend of `p` with itself. -/
theorem filter_retains_on_invalid (s : RadarState) (r : ℚ) (hs : Sampling s)
    (_hp : 0 ≤ s.g_currentDistance) (hr : r ≤ 0 ∨ r ≥ 400) :
    (Radar_ScanCycle r s).state.g_currentDistance = s.g_currentDistance ∧
      filterDistance r s.g_currentDistance = s.g_currentDistance ∧
      (Radar_ScanCycle r s).state.g_alarmState = Get_AlarmState s.g_currentDistance ∧
      (published (Radar_ScanCycle r s).effects).map RadarData_t.distance =
        [s.g_currentDistance] ∧
      (∀ p x : ℚ, (x ≤ 0 ∨ x ≥ 400) →
        filterDistance32 x p = if x < 0 ∨ p = 0 then p else blend32 p p) := by
  have h32 : ∀ p x : ℚ, (x ≤ 0 ∨ x ≥ 400) →
      filterDistance32 x p = if x < 0 ∨ p = 0 then p else blend32 p p := by
    intro p x hx
    unfold filterDistance32
    by_cases h1 : x ≥ 0
    · have hn : ¬ x < 0 := not_lt.mpr h1
      rw [if_pos h1]
      simp only [if_pos hx]
      by_cases h4 : p = 0
      · rw [if_pos h4, if_pos (Or.inr h4)]
      · rw [if_neg h4, if_neg (by rintro (h | h); exact hn h; exact h4 h)]
    · rw [if_neg h1, if_pos (Or.inl (not_le.mp h1))]
  suffices hmain : (Radar_ScanCycle r s).state.g_currentDistance = s.g_currentDistance ∧
      filterDistance r s.g_currentDistance = s.g_currentDistance ∧
      (Radar_ScanCycle r s).state.g_alarmState = Get_AlarmState s.g_currentDistance ∧
      (published (Radar_ScanCycle r s).effects).map RadarData_t.distance =
        [s.g_currentDistance] from
    ⟨hmain.1, hmain.2.1, hmain.2.2.1, hmain.2.2.2, h32⟩
  have key : filterDistance r s.g_currentDistance = s.g_currentDistance := by
    unfold filterDistance
    by_cases h1 : r ≥ 0
    · rw [if_pos h1]
      simp only [if_pos hr]
      by_cases h4 : s.g_currentDistance = 0
      · rw [if_pos h4]
      · rw [if_neg h4]; exact blend_self _
    · rw [if_neg h1]
  rw [scanCycle_sampling r s hs]
  simp only [key, published, List.map]
  exact ⟨trivial, trivial, trivial, trivial⟩

/-- For C4: the failure sentinel -1, 0 and 400 all leave a filtered distance
of 100 in place. -/
theorem filter_retains_on_invalid_witness :
    (Radar_ScanCycle (-1) (samplingState 100)).state.g_currentDistance = 100 ∧
    (Radar_ScanCycle 0 (samplingState 100)).state.g_currentDistance = 100 ∧
    (Radar_ScanCycle 400 (samplingState 100)).state.g_currentDistance = 100 :=
  ⟨(filter_retains_on_invalid (samplingState 100) (-1) (by decide)
      (by norm_num [samplingState]) (by norm_num)).1,
   (filter_retains_on_invalid (samplingState 100) 0 (by decide)
      (by norm_num [samplingState]) (by norm_num)).1,
   (filter_retains_on_invalid (samplingState 100) 400 (by decide)
      (by norm_num [samplingState]) (by norm_num)).1⟩

/-- C5 fails as stated on the single-precision code: with filtered value
`p = 1.9f` and a raw reading equal to `p`, the code stores
`p * 0.7f + p * 0.3f`, which rounds to `7969177/4194304`, one unit in the last
place below `p = 15938355/8388608`. -/
theorem filter_idempotent_counterexample :
    fl32 (19 / 10) = 15938355 / 8388608 ∧ (0 : ℚ) ≤ fl32 (19 / 10) ∧
    filterDistance32 (fl32 (19 / 10)) (fl32 (19 / 10)) = 7969177 / 4194304 ∧
    filterDistance32 (fl32 (19 / 10)) (fl32 (19 / 10)) ≠ fl32 (19 / 10) := by
  decide!

/-- C5 as amended: filter idempotence with distances taken as exact numbers:
on a sampling cycle with filtered value `p ≥ 0`, a raw reading equal to `p`
leaves the filtered distance equal to `p`. In single precision the stored
value is `p` itself when `p = 0`, and otherwise the rounded blend of `p` with
itself. -/
theorem filter_idempotent (s : RadarState) (hs : Sampling s)
    (_hp : 0 ≤ s.g_currentDistance) :
    (Radar_ScanCycle s.g_currentDistance s).state.g_currentDistance = s.g_currentDistance ∧
      filterDistance s.g_currentDistance s.g_currentDistance = s.g_currentDistance ∧
      (∀ p : ℚ, 0 ≤ p →
        filterDistance32 p p = if p = 0 then p else blend32 p p) := by
  have h32 : ∀ p : ℚ, 0 ≤ p → filterDistance32 p p = if p = 0 then p else blend32 p p := by
    intro p hp0
    have h1 : p ≥ 0 := hp0
    unfold filterDistance32
    rw [if_pos h1]
    have hv : (if p ≤ 0 ∨ p ≥ 400 then p
        else if p > 0 ∧ (p > fl32 (p + 50) ∨ p < fl32 (p - 50)) then p else p) = p := by
      split_ifs <;> rfl
    simp only [hv]
  suffices hmain :
      (Radar_ScanCycle s.g_currentDistance s).state.g_currentDistance =
        s.g_currentDistance ∧
      filterDistance s.g_currentDistance s.g_currentDistance = s.g_currentDistance from
    ⟨hmain.1, hmain.2, h32⟩
  have key : filterDistance s.g_currentDistance s.g_currentDistance =
      s.g_currentDistance := by
    unfold filterDistance
    by_cases h1 : s.g_currentDistance ≥ 0
    · rw [if_pos h1]
      by_cases h4 : s.g_currentDistance = 0
      · rw [if_pos h4]
        have h2 : s.g_currentDistance ≤ 0 ∨ s.g_currentDistance ≥ 400 :=
          Or.inl (le_of_eq h4)
        simp only [if_pos h2]
      · rw [if_neg h4]
        have h3 : ¬ (s.g_currentDistance > 0 ∧
            (s.g_currentDistance > s.g_currentDistance + 50 ∨
              s.g_currentDistance < s.g_currentDistance - 50)) := by
          rintro ⟨_, h | h⟩ <;> linarith
        simp only [if_neg h3, ite_self]
        exact blend_self _
    · rw [if_neg h1]
  refine ⟨?_, key⟩
  rw [scanCycle_sampling _ s hs]
  exact key

/-- For C5: with filtered distance 100, a reading of 100 leaves 100; with no
estimate yet (0), a reading of 0 leaves 0. -/
theorem filter_idempotent_witness :
    (Radar_ScanCycle 100 (samplingState 100)).state.g_currentDistance = 100 ∧
    (Radar_ScanCycle 0 (samplingState 0)).state.g_currentDistance = 0 :=
  ⟨(filter_idempotent (samplingState 100) (by decide) (by norm_num [samplingState])).1,
   (filter_idempotent (samplingState 0) (by decide) (by norm_num [samplingState])).1⟩

/-! ## Runs -/

theorem runFrom_snoc (s : RadarState) (acts : List Action) (a : Action) :
    runFrom s (acts ++ [a]) = step (runFrom s acts) a := by
  simp [runFrom, List.foldl_append]

theorem runFrom_cons (s : RadarState) (a : Action) (acts : List Action) :
    runFrom s (a :: acts) = runFrom (step s a) acts := rfl

/-- A property kept by every step holds along every run. -/
theorem runFrom_preserves (P : RadarState → Prop)
    (hstep : ∀ s a, P s → P (step s a)) :
    ∀ (acts : List Action) (s : RadarState), P s → P (runFrom s acts) := by
  intro acts
  induction acts with
  | nil => intro s h; exact h
  | cons a acts ih =>
    intro s h
    rw [runFrom_cons]
    exact ih _ (hstep s a h)

theorem Key_ScanStep_frame (k : KeyValue) (t : Nat) (s : RadarState) :
    (Key_ScanStep k t s).state.g_alarmState = s.g_alarmState ∧
    (Key_ScanStep k t s).state.g_currentAngle = s.g_currentAngle ∧
    (Key_ScanStep k t s).state.g_currentDistance = s.g_currentDistance ∧
    (Key_ScanStep k t s).state.g_distanceUpdateCounter = s.g_distanceUpdateCounter ∧
    (Key_ScanStep k t s).state.currentAngle = s.currentAngle ∧
    (Key_ScanStep k t s).state.direction = s.direction := by
  unfold Key_ScanStep
  split_ifs <;> simp

theorem MQTT_SubCallback_frame (topic payload : List Char) (acq : Bool) (s : RadarState) :
    (MQTT_SubCallback topic payload acq s).state.g_alarmState = s.g_alarmState ∧
    (MQTT_SubCallback topic payload acq s).state.g_currentAngle = s.g_currentAngle ∧
    (MQTT_SubCallback topic payload acq s).state.g_currentDistance = s.g_currentDistance ∧
    (MQTT_SubCallback topic payload acq s).state.g_distanceUpdateCounter =
      s.g_distanceUpdateCounter ∧
    (MQTT_SubCallback topic payload acq s).state.currentAngle = s.currentAngle ∧
    (MQTT_SubCallback topic payload acq s).state.direction = s.direction ∧
    (MQTT_SubCallback topic payload acq s).state.lastPressTime = s.lastPressTime := by
  unfold MQTT_SubCallback
  split_ifs <;> simp

theorem Key_ScanStep_coherent (k : KeyValue) (t : Nat) (s : RadarState) (h : Coherent s) :
    Coherent (Key_ScanStep k t s).state := by
  obtain ⟨h1, h2⟩ := h
  unfold Key_ScanStep
  split_ifs <;> simp_all [Coherent]

theorem MQTT_SubCallback_coherent (topic payload : List Char) (acq : Bool) (s : RadarState)
    (h : Coherent s) : Coherent (MQTT_SubCallback topic payload acq s).state := by
  obtain ⟨h1, h2⟩ := h
  unfold MQTT_SubCallback
  split_ifs <;> simp_all [Coherent]

theorem Radar_ScanCycle_coherent (sensor : ℚ) (s : RadarState) (h : Coherent s) :
    Coherent (Radar_ScanCycle sensor s).state := by
  obtain ⟨h1, h2⟩ := h
  unfold Radar_ScanCycle
  by_cases hen : s.g_scanEnabled = true
  · have hns : s.g_systemState ≠ SYSTEM_STOPPED := by
      intro hc
      have := h2.mpr hc
      simp [hen] at this
    simp only [hen, Bool.not_true, Bool.false_eq_true, if_false]
    split_ifs <;> simp_all [Coherent]
  · simp only [Bool.not_eq_true] at hen
    simp only [hen, Bool.not_false, if_true]
    exact ⟨h1, h2⟩

theorem step_coherent (s : RadarState) (a : Action) (h : Coherent s) :
    Coherent (step s a) := by
  cases a with
  | scan sensor => exact Radar_ScanCycle_coherent sensor s h
  | key k t => exact Key_ScanStep_coherent k t s h
  | mqtt topic payload acq => exact MQTT_SubCallback_coherent topic payload acq s h

theorem run_coherent (acts : List Action) : Coherent (run acts) :=
  runFrom_preserves Coherent step_coherent acts initState (by simp [Coherent, initState])

/-! ## Shared-state invariant -/

/-- C6 fails as stated: ten scan cycles reading 5 cm raise the alarm, and a
STOP command (or key 2) then sets `SYSTEM_STOPPED` while `g_alarmState` is
still `ALARM_DANGER`; a START after that sets `SYSTEM_SCANNING`, again with
`ALARM_DANGER`. -/
theorem shared_state_invariant_counterexample :
    (run (List.replicate 10 (Action.scan 5) ++
        [Action.mqtt "hi3861/radar/control".toList "STOP".toList true])).g_alarmState
      = ALARM_DANGER ∧
    (run (List.replicate 10 (Action.scan 5) ++
        [Action.mqtt "hi3861/radar/control".toList "STOP".toList true])).g_systemState
      = SYSTEM_STOPPED ∧
    (run (List.replicate 10 (Action.scan 5) ++
        [Action.key KeyValue.KEY2_PRESS 1000])).g_alarmState = ALARM_DANGER ∧
    (run (List.replicate 10 (Action.scan 5) ++
        [Action.key KeyValue.KEY2_PRESS 1000])).g_systemState = SYSTEM_STOPPED ∧
    (run (List.replicate 10 (Action.scan 5) ++
        [Action.mqtt "hi3861/radar/control".toList "STOP".toList true,
         Action.mqtt "hi3861/radar/control".toList "START".toList true])).g_alarmState
      = ALARM_DANGER ∧
    (run (List.replicate 10 (Action.scan 5) ++
        [Action.mqtt "hi3861/radar/control".toList "STOP".toList true,
         Action.mqtt "hi3861/radar/control".toList "START".toList true])).g_systemState
      = SYSTEM_SCANNING ∧
    ¬ ((run (List.replicate 10 (Action.scan 5) ++
          [Action.mqtt "hi3861/radar/control".toList "STOP".toList true])).g_systemState
        = SYSTEM_ALARM ↔
       (run (List.replicate 10 (Action.scan 5) ++
          [Action.mqtt "hi3861/radar/control".toList "STOP".toList true])).g_alarmState
        = ALARM_DANGER) := by
  decide

/-- C6 as amended: in every state reachable from the initial state by scan
cycles, key polls and remote messages, `SYSTEM_ALARM` implies `ALARM_DANGER`,
scanning is disabled exactly when the state is `SYSTEM_STOPPED`, and when the
alarm is not `ALARM_DANGER` the system state is `SYSTEM_SCANNING` if scanning
is enabled and `SYSTEM_STOPPED` if not; right after a sampling scan cycle the
system state is `SYSTEM_ALARM` if and only if the alarm is `ALARM_DANGER`. -/
theorem shared_state_invariant_amended (acts : List Action) :
    ((run acts).g_systemState = SYSTEM_ALARM → (run acts).g_alarmState = ALARM_DANGER) ∧
    ((run acts).g_scanEnabled = false ↔ (run acts).g_systemState = SYSTEM_STOPPED) ∧
    ((run acts).g_alarmState ≠ ALARM_DANGER →
      (run acts).g_systemState =
        if (run acts).g_scanEnabled then SYSTEM_SCANNING else SYSTEM_STOPPED) ∧
    (∀ sensor : ℚ, Sampling (run acts) →
      ((Radar_ScanCycle sensor (run acts)).state.g_systemState = SYSTEM_ALARM ↔
        (Radar_ScanCycle sensor (run acts)).state.g_alarmState = ALARM_DANGER)) := by
  obtain ⟨h1, h2⟩ := run_coherent acts
  refine ⟨h1, h2, ?_, ?_⟩
  · intro hnd
    have hna : (run acts).g_systemState ≠ SYSTEM_ALARM := fun h => hnd (h1 h)
    cases hen : (run acts).g_scanEnabled with
    | false =>
      simp only [Bool.false_eq_true, if_false]
      exact h2.mp hen
    | true =>
      simp only [if_true]
      have hns : (run acts).g_systemState ≠ SYSTEM_STOPPED := by
        intro hc
        have := h2.mpr hc
        rw [hen] at this
        exact Bool.noConfusion this
      cases hsys : (run acts).g_systemState with
      | SYSTEM_SCANNING => rfl
      | SYSTEM_STOPPED => exact absurd hsys hns
      | SYSTEM_ALARM => exact absurd hsys hna
  · intro sensor hs
    rw [scanCycle_sampling sensor _ hs]
    simp only
    split_ifs with hd
    · simp [hd]
    · simp [hd]

/-- For C6 as amended: after ten scan cycles reading 20 cm and a STOP, the
alarm is not Danger and the state is Stopped with scanning disabled; and the
tenth cycle reading 5 cm raises Danger and Alarm together. -/
theorem shared_state_invariant_amended_witness :
    (run (List.replicate 10 (Action.scan 20) ++
        [Action.mqtt "hi3861/radar/control".toList "STOP".toList true])).g_systemState
      = SYSTEM_STOPPED ∧
    ((Radar_ScanCycle 5 (run (List.replicate 9 (Action.scan 5)))).state.g_systemState
        = SYSTEM_ALARM ↔
      (Radar_ScanCycle 5 (run (List.replicate 9 (Action.scan 5)))).state.g_alarmState
        = ALARM_DANGER) :=
  ⟨(shared_state_invariant_amended (List.replicate 10 (Action.scan 20) ++
      [Action.mqtt "hi3861/radar/control".toList "STOP".toList true])).2.2.1 (by decide),
   (shared_state_invariant_amended (List.replicate 9 (Action.scan 5))).2.2.2 5 (by decide)⟩

/-! ## Published samples -/

theorem published_append (es fs : List Effect) :
    published (es ++ fs) = published es ++ published fs := by
  induction es with
  | nil => rfl
  | cons e es ih => cases e <;> simp [published, ih]

/-- What a scan cycle publishes: nothing, or the one sample built from the
filtered distance of that cycle. -/
theorem published_scanCycle (sensor : ℚ) (s : RadarState) :
    published (Radar_ScanCycle sensor s).effects = [] ∨
    ∃ dist : ℚ, published (Radar_ScanCycle sensor s).effects =
      [{ distance := dist, angle := s.currentAngle, alarmState := Get_AlarmState dist,
         sysState :=
          if Get_AlarmState dist = ALARM_DANGER then SYSTEM_ALARM else SYSTEM_SCANNING }] := by
  unfold Radar_ScanCycle
  by_cases hen : s.g_scanEnabled = true
  · simp only [hen, Bool.not_true, Bool.false_eq_true, if_false, published_append]
    by_cases h9 : s.g_distanceUpdateCounter ≥ 9
    · by_cases h10 : (s.g_distanceUpdateCounter + 1) % U8 ≥ 10
      · right
        exact ⟨filterDistance sensor s.g_currentDistance, by simp [h9, h10, published]⟩
      · left
        simp [h9, h10, published]
    · by_cases h10 : (s.g_distanceUpdateCounter + 1) % U8 ≥ 10
      · right
        exact ⟨filterDistance (-1) s.g_currentDistance, by simp [h9, h10, published]⟩
      · left
        simp [h9, h10, published]
  · simp only [Bool.not_eq_true] at hen
    left
    simp [hen, published]

/-- C7: every `RadarData_t` the scan task hands to the data queue with
`alarmState == ALARM_DANGER` has `sysState == SYSTEM_ALARM`. -/
theorem published_danger_is_alarm (sensor : ℚ) (s : RadarState) (d : RadarData_t)
    (hd : d ∈ published (Radar_ScanCycle sensor s).effects)
    (hdanger : d.alarmState = ALARM_DANGER) : d.sysState = SYSTEM_ALARM := by
  rcases published_scanCycle sensor s with h | ⟨dist, h⟩
  · rw [h] at hd
    exact absurd hd (List.not_mem_nil d)
  · rw [h] at hd
    rw [List.mem_singleton] at hd
    subst hd
    simp only at hdanger ⊢
    rw [if_pos hdanger]

/-- For C7: the sample published when the filtered distance becomes 5 cm is
Danger and carries `SYSTEM_ALARM`. -/
theorem published_danger_is_alarm_witness :
    (⟨5, 90, ALARM_DANGER, SYSTEM_ALARM⟩ : RadarData_t) ∈
        published (Radar_ScanCycle 5 (samplingState 0)).effects ∧
      (⟨5, 90, ALARM_DANGER, SYSTEM_ALARM⟩ : RadarData_t).sysState = SYSTEM_ALARM :=
  ⟨by decide,
   published_danger_is_alarm 5 (samplingState 0) ⟨5, 90, ALARM_DANGER, SYSTEM_ALARM⟩
     (by decide) rfl⟩

/-! ## Sweep -/

theorem stepAngle_cursorOk (a : Nat) (d : Int) (h : CursorOk a d) :
    CursorOk (stepAngle a d).1 (stepAngle a d).2 := by
  obtain ⟨h5, h | h⟩ := h
  · obtain ⟨hd, ha⟩ := h
    subst hd
    have hmod : (a + 5) % 65536 = a + 5 := Nat.mod_eq_of_lt (by omega)
    simp only [stepAngle, SCAN_STEP_ANGLE, SCAN_END_ANGLE, U16, hmod]
    unfold CursorOk
    split_ifs <;> simp <;> omega
  · obtain ⟨hd, ha5, ha⟩ := h
    subst hd
    have hmod : (a + 65536 - 5) % 65536 = a - 5 := by
      have : a + 65536 - 5 = (a - 5) + 65536 := by omega
      rw [this, Nat.add_mod_right]
      exact Nat.mod_eq_of_lt (by omega)
    simp only [stepAngle, SCAN_STEP_ANGLE, SCAN_START_ANGLE, U16, hmod]
    unfold CursorOk
    split_ifs <;> simp <;> omega

theorem sweep_cursorOk (n : Nat) : CursorOk (sweep n).1 (sweep n).2 := by
  induction n with
  | zero => simp [sweep, CursorOk]
  | succ n ih => exact stepAngle_cursorOk _ _ ih

/-- What one step does to a cursor on the sweep. -/
theorem stepAngle_on_sweep (a : Nat) (d : Int) (h : CursorOk a d) :
    (d = 1 → a < (stepAngle a d).1) ∧
    (d = -1 → (stepAngle a d).1 < a) ∧
    ((stepAngle a d).2 ≠ d ↔ ((stepAngle a d).1 = 180 ∨ (stepAngle a d).1 = 0)) ∧
    ((stepAngle a d).1 = 180 → (stepAngle a d).2 = -1) ∧
    ((stepAngle a d).1 = 0 → (stepAngle a d).2 = 1) := by
  obtain ⟨h5, h | h⟩ := h
  · obtain ⟨hd, ha⟩ := h
    subst hd
    have hmod : (a + 5) % 65536 = a + 5 := Nat.mod_eq_of_lt (by omega)
    simp only [stepAngle, SCAN_STEP_ANGLE, SCAN_END_ANGLE, U16, hmod]
    split_ifs <;> simp <;> omega
  · obtain ⟨hd, ha5, ha⟩ := h
    subst hd
    have hmod : (a + 65536 - 5) % 65536 = a - 5 := by
      have : a + 65536 - 5 = (a - 5) + 65536 := by omega
      rw [this, Nat.add_mod_right]
      exact Nat.mod_eq_of_lt (by omega)
    simp only [stepAngle, SCAN_STEP_ANGLE, SCAN_START_ANGLE, U16, hmod]
    split_ifs <;> simp <;> omega

theorem scanCycle_cursor (sensor : ℚ) (s : RadarState) :
    ((Radar_ScanCycle sensor s).state.currentAngle, (Radar_ScanCycle sensor s).state.direction) =
      if s.g_scanEnabled then stepAngle s.currentAngle s.direction
      else (s.currentAngle, s.direction) := by
  unfold Radar_ScanCycle
  cases hen : s.g_scanEnabled <;> simp

theorem step_cursor (s : RadarState) (a : Action) :
    ((step s a).currentAngle, (step s a).direction) =
      match a with
      | Action.scan _ =>
          if s.g_scanEnabled then stepAngle s.currentAngle s.direction
          else (s.currentAngle, s.direction)
      | _ => (s.currentAngle, s.direction) := by
  cases a with
  | scan sensor => exact scanCycle_cursor sensor s
  | key k t =>
    have h := Key_ScanStep_frame k t s
    simp only [step, h.2.2.2.2.1, h.2.2.2.2.2]
  | mqtt topic payload acq =>
    have h := MQTT_SubCallback_frame topic payload acq s
    simp only [step, h.2.2.2.2.1, h.2.2.2.2.2.1]

theorem runFrom_cursor (acts : List Action) :
    ∀ (s : RadarState) (k : Nat), (s.currentAngle, s.direction) = sweep k →
      ((runFrom s acts).currentAngle, (runFrom s acts).direction) =
        sweep (k + enabledCycles s acts) := by
  induction acts with
  | nil => intro s k h; simpa [runFrom, enabledCycles] using h
  | cons a acts ih =>
    intro s k h
    rw [runFrom_cons]
    have hc := step_cursor s a
    have hs1 : s.currentAngle = (sweep k).1 := by rw [← h]
    have hs2 : s.direction = (sweep k).2 := by rw [← h]
    cases a with
    | scan sensor =>
      cases hen : s.g_scanEnabled with
      | true =>
        have h' : ((step s (Action.scan sensor)).currentAngle,
            (step s (Action.scan sensor)).direction) = sweep (k + 1) := by
          rw [hc]; simp only [hen, if_true, sweep, hs1, hs2]
        rw [ih _ (k + 1) h']
        simp only [enabledCycles, hen, if_true]
        congr 1; omega
      | false =>
        have h' : ((step s (Action.scan sensor)).currentAngle,
            (step s (Action.scan sensor)).direction) = sweep k := by
          rw [hc]; simp only [hen, Bool.false_eq_true, if_false]; exact h
        rw [ih _ k h']
        simp only [enabledCycles, hen, Bool.false_eq_true, if_false, Nat.zero_add]
    | key kv t =>
      have h' : ((step s (Action.key kv t)).currentAngle,
          (step s (Action.key kv t)).direction) = sweep k := by
        rw [hc]; exact h
      rw [ih _ k h']
      simp only [enabledCycles]
    | mqtt topic payload acq =>
      have h' : ((step s (Action.mqtt topic payload acq)).currentAngle,
          (step s (Action.mqtt topic payload acq)).direction) = sweep k := by
        rw [hc]; exact h
      rw [ih _ k h']
      simp only [enabledCycles]

/-- C8: from angle 90 and direction +1, stepping by 5 per enabled cycle, every
angle of the sweep is within 0..180; the angle strictly increases while the
direction is +1 and strictly decreases while it is -1; the direction flips
exactly on the steps that arrive at 180 (to -1) and at 0 (to +1); and in every
run the scan cursor is the sweep position after as many steps as there were
enabled cycles. -/
theorem sweep_bounds_and_reversal (n : Nat) :
    (0 ≤ (sweep n).1 ∧ (sweep n).1 ≤ 180) ∧
    ((sweep n).2 = 1 ∨ (sweep n).2 = -1) ∧
    ((sweep n).2 = 1 → (sweep n).1 < (sweep (n + 1)).1) ∧
    ((sweep n).2 = -1 → (sweep (n + 1)).1 < (sweep n).1) ∧
    ((sweep (n + 1)).2 ≠ (sweep n).2 ↔ ((sweep (n + 1)).1 = 180 ∨ (sweep (n + 1)).1 = 0)) ∧
    ((sweep (n + 1)).1 = 180 → (sweep (n + 1)).2 = -1) ∧
    ((sweep (n + 1)).1 = 0 → (sweep (n + 1)).2 = 1) ∧
    (∀ acts : List Action,
      ((run acts).currentAngle, (run acts).direction) = sweep (enabledCycles initState acts)) ∧
    (∀ (sensor : ℚ) (s : RadarState),
      ((Radar_ScanCycle sensor s).state.currentAngle,
          (Radar_ScanCycle sensor s).state.direction) =
        if s.g_scanEnabled then stepAngle s.currentAngle s.direction
        else (s.currentAngle, s.direction)) := by
  have hok := sweep_cursorOk n
  have hstep := stepAngle_on_sweep _ _ hok
  refine ⟨⟨Nat.zero_le _, ?_⟩, ?_, hstep.1, hstep.2.1, hstep.2.2.1, hstep.2.2.2.1,
    hstep.2.2.2.2, ?_, scanCycle_cursor⟩
  · obtain ⟨_, h | h⟩ := hok <;> omega
  · obtain ⟨_, h | h⟩ := hok
    · exact Or.inl h.1
    · exact Or.inr h.1
  · intro acts
    have := runFrom_cursor acts initState 0 rfl
    simpa [run] using this

set_option maxRecDepth 20000 in
/-- For C8: the sweep goes 90, 95, ..., 175, reaches 180 on step 18 where it
turns down, and reaches 0 on step 54 where it turns up again. -/
theorem sweep_bounds_and_reversal_witness :
    sweep 17 = (175, 1) ∧ sweep 18 = (180, -1) ∧ sweep 19 = (175, -1) ∧
    sweep 53 = (5, -1) ∧ sweep 54 = (0, 1) ∧ sweep 55 = (5, 1) ∧
    (sweep 17).1 < (sweep 18).1 ∧ (sweep 19).1 < (sweep 18).1 :=
  ⟨by decide, by decide, by decide, by decide, by decide, by decide,
   (sweep_bounds_and_reversal 17).2.2.1 (by decide),
   (sweep_bounds_and_reversal 18).2.2.2.1 (by decide)⟩

/-! ## Sampling cadence -/

theorem step_counter (s : RadarState) (a : Action) (h : s.g_distanceUpdateCounter ≤ 9) :
    (step s a).g_distanceUpdateCounter =
      match a with
      | Action.scan _ =>
          if s.g_scanEnabled then (s.g_distanceUpdateCounter + 1) % 10
          else s.g_distanceUpdateCounter
      | _ => s.g_distanceUpdateCounter := by
  cases a with
  | scan sensor =>
    cases hen : s.g_scanEnabled with
    | false => simp [step, scanCycle_disabled sensor s hen]
    | true =>
      by_cases h9 : s.g_distanceUpdateCounter < 9
      · simp only [step, scanCycle_quiet sensor s hen h9, if_true]
        omega
      · have hs : Sampling s := ⟨hen, by omega, by omega⟩
        simp only [step, scanCycle_sampling sensor s hs, if_true]
        omega
  | key k t => exact (Key_ScanStep_frame k t s).2.2.2.1
  | mqtt topic payload acq => exact (MQTT_SubCallback_frame topic payload acq s).2.2.2.1

theorem runFrom_counter (acts : List Action) :
    ∀ s : RadarState, s.g_distanceUpdateCounter ≤ 9 →
      (runFrom s acts).g_distanceUpdateCounter =
        (s.g_distanceUpdateCounter + enabledCycles s acts) % 10 := by
  induction acts with
  | nil =>
    intro s h
    simp only [runFrom, List.foldl_nil, enabledCycles, Nat.add_zero]
    omega
  | cons a acts ih =>
    intro s h
    rw [runFrom_cons]
    have hc := step_counter s a h
    cases a with
    | scan sensor =>
      cases hen : s.g_scanEnabled with
      | true =>
        simp only [hen, if_true] at hc
        have hle : (step s (Action.scan sensor)).g_distanceUpdateCounter ≤ 9 := by
          rw [hc]; omega
        rw [ih _ hle, hc]
        simp only [enabledCycles, hen, if_true]
        omega
      | false =>
        simp only [hen, Bool.false_eq_true, if_false] at hc
        have hle : (step s (Action.scan sensor)).g_distanceUpdateCounter ≤ 9 := by
          rw [hc]; exact h
        rw [ih _ hle, hc]
        simp only [enabledCycles, hen, Bool.false_eq_true, if_false, Nat.zero_add]
    | key kv t =>
      simp only at hc
      have hle : (step s (Action.key kv t)).g_distanceUpdateCounter ≤ 9 := by
        rw [hc]; exact h
      rw [ih _ hle, hc]
      simp only [enabledCycles]
    | mqtt topic payload acq =>
      simp only at hc
      have hle : (step s (Action.mqtt topic payload acq)).g_distanceUpdateCounter ≤ 9 := by
        rw [hc]; exact h
      rw [ih _ hle, hc]
      simp only [enabledCycles]

theorem run_counter (acts : List Action) :
    (run acts).g_distanceUpdateCounter = enabledCycles initState acts % 10 := by
  have h := runFrom_counter acts initState (by decide)
  simpa [run, initState] using h

theorem controls_frame (during : List Control) :
    ∀ s : RadarState,
      (runFrom s (during.map Control.toAction)).g_distanceUpdateCounter =
          s.g_distanceUpdateCounter ∧
        (runFrom s (during.map Control.toAction)).currentAngle = s.currentAngle ∧
        (runFrom s (during.map Control.toAction)).direction = s.direction ∧
        (runFrom s (during.map Control.toAction)).g_currentDistance = s.g_currentDistance ∧
        (runFrom s (during.map Control.toAction)).g_alarmState = s.g_alarmState ∧
        (runFrom s (during.map Control.toAction)).g_currentAngle = s.g_currentAngle := by
  induction during with
  | nil => intro s; exact ⟨rfl, rfl, rfl, rfl, rfl, rfl⟩
  | cons c cs ih =>
    intro s
    rw [List.map_cons, runFrom_cons]
    have h := ih (step s c.toAction)
    cases c with
    | key k t =>
      have hf := Key_ScanStep_frame k t s
      simp only [Control.toAction, step] at h ⊢
      exact ⟨h.1.trans hf.2.2.2.1, h.2.1.trans hf.2.2.2.2.1, h.2.2.1.trans hf.2.2.2.2.2,
        h.2.2.2.1.trans hf.2.2.1, h.2.2.2.2.1.trans hf.1, h.2.2.2.2.2.trans hf.2.1⟩
    | mqtt topic payload acq =>
      have hf := MQTT_SubCallback_frame topic payload acq s
      simp only [Control.toAction, step] at h ⊢
      exact ⟨h.1.trans hf.2.2.2.1, h.2.1.trans hf.2.2.2.2.1, h.2.2.1.trans hf.2.2.2.2.2.1,
        h.2.2.2.1.trans hf.2.2.1, h.2.2.2.2.1.trans hf.1, h.2.2.2.2.2.trans hf.2.1⟩

/-- With no other task running in between and the queue created, a pass is
the atomic scan cycle. -/
theorem scanPass_atomic (sensor : ℚ) (s : RadarState) :
    Radar_ScanPass sensor [] true s = Radar_ScanCycle sensor s := by
  unfold Radar_ScanPass Radar_ScanCycle
  simp [runFrom]

/-- A pass that starts enabled and finds scanning disabled at the re-test of
line 300 has commanded the actuator and, with the counter at 9 or more, read
the sensor; it changes nothing itself. -/
theorem scanPass_aborted (sensor : ℚ) (during : List Control) (queueCreated : Bool)
    (s : RadarState) (hen : s.g_scanEnabled = true)
    (hoff : (runFrom s (during.map Control.toAction)).g_scanEnabled = false) :
    Radar_ScanPass sensor during queueCreated s =
      ⟨runFrom s (during.map Control.toAction),
        Effect.set_sg90_angle s.currentAngle ::
          (if s.g_distanceUpdateCounter ≥ 9 then [Effect.sr04_read_distance] else [])⟩ := by
  have hc := (controls_frame during s).1
  unfold Radar_ScanPass
  simp only [hen, hoff, hc, Bool.not_true, Bool.not_false, Bool.false_eq_true, if_false,
    if_true]
  split_ifs <;> rfl

/-- With `g_dataQueue` NULL (line 344) a pass publishes nothing. -/
theorem scanPass_no_queue (sensor : ℚ) (during : List Control) (s : RadarState) :
    published (Radar_ScanPass sensor during false s).effects = [] := by
  unfold Radar_ScanPass
  simp only [published_append, Bool.false_eq_true, if_false, List.append_nil]
  split_ifs <;> simp [published]

/-- C9 fails as stated on the code: after nine enabled cycles, a pass that
starts with scanning enabled and receives STOP during its sleep reads the
sensor and is aborted at line 300 with the counter still at 9 and nothing
published; after START the next pass reads the sensor again. So two
successive passes that start enabled both read the sensor. -/
theorem sampling_cadence_counterexample :
    (run (List.replicate 9 (Action.scan 20))).g_scanEnabled = true ∧
    Effect.sr04_read_distance ∈
      (Radar_ScanPass 20 [Control.mqtt MQTT_TOPIC_CONTROL "STOP".toList true] true
        (run (List.replicate 9 (Action.scan 20)))).effects ∧
    (Radar_ScanPass 20 [Control.mqtt MQTT_TOPIC_CONTROL "STOP".toList true] true
        (run (List.replicate 9 (Action.scan 20)))).state.g_distanceUpdateCounter = 9 ∧
    published (Radar_ScanPass 20 [Control.mqtt MQTT_TOPIC_CONTROL "STOP".toList true] true
        (run (List.replicate 9 (Action.scan 20)))).effects = [] ∧
    (MQTT_SubCallback MQTT_TOPIC_CONTROL "START".toList true
      (Radar_ScanPass 20 [Control.mqtt MQTT_TOPIC_CONTROL "STOP".toList true] true
        (run (List.replicate 9 (Action.scan 20)))).state).state.g_scanEnabled = true ∧
    Effect.sr04_read_distance ∈
      (Radar_ScanPass 20 [] true
        (MQTT_SubCallback MQTT_TOPIC_CONTROL "START".toList true
          (Radar_ScanPass 20 [Control.mqtt MQTT_TOPIC_CONTROL "STOP".toList true] true
            (run (List.replicate 9 (Action.scan 20)))).state).state).effects := by
  decide

/-- C9 as amended: taking each scan cycle as one atomic step (scanning is not
disabled between the test of line 280 and the re-test of line 300), in a run
from the initial state that contains `n` enabled scan cycles, the counter at
the start of the next cycle is `n mod 10` (so within 0..9); the next scan
cycle calls the distance sensor exactly when scanning is enabled and it is
enabled cycle number 10, 20, 30, ...; and on every other enabled cycle
`g_currentDistance`, `g_alarmState` and `g_systemState` are left unchanged and
nothing is published. A pass during which scanning is disabled between the two
tests still commands the actuator and, with the counter at 9, still reads the
sensor, but leaves the counter, the cursor, `g_currentAngle`,
`g_currentDistance` and `g_alarmState` as they were and publishes nothing. -/
theorem sampling_cadence (acts : List Action) (sensor : ℚ) :
    (run acts).g_distanceUpdateCounter = enabledCycles initState acts % 10 ∧
    (run acts).g_distanceUpdateCounter ≤ 9 ∧
    (Effect.sr04_read_distance ∈ (Radar_ScanCycle sensor (run acts)).effects ↔
      ((run acts).g_scanEnabled = true ∧ (enabledCycles initState acts + 1) % 10 = 0)) ∧
    (((run acts).g_scanEnabled = true ∧ (enabledCycles initState acts + 1) % 10 ≠ 0) →
      (Radar_ScanCycle sensor (run acts)).state.g_currentDistance =
          (run acts).g_currentDistance ∧
        (Radar_ScanCycle sensor (run acts)).state.g_alarmState = (run acts).g_alarmState ∧
        (Radar_ScanCycle sensor (run acts)).state.g_systemState = (run acts).g_systemState ∧
        published (Radar_ScanCycle sensor (run acts)).effects = []) ∧
    (∀ (x : ℚ) (s : RadarState), Radar_ScanPass x [] true s = Radar_ScanCycle x s) ∧
    (∀ (x : ℚ) (during : List Control) (queueCreated : Bool) (s : RadarState),
      s.g_scanEnabled = true →
      (runFrom s (during.map Control.toAction)).g_scanEnabled = false →
      (Radar_ScanPass x during queueCreated s).effects =
          Effect.set_sg90_angle s.currentAngle ::
            (if s.g_distanceUpdateCounter ≥ 9 then [Effect.sr04_read_distance] else []) ∧
        published (Radar_ScanPass x during queueCreated s).effects = [] ∧
        (Radar_ScanPass x during queueCreated s).state.g_distanceUpdateCounter =
          s.g_distanceUpdateCounter ∧
        (Radar_ScanPass x during queueCreated s).state.currentAngle = s.currentAngle ∧
        (Radar_ScanPass x during queueCreated s).state.direction = s.direction ∧
        (Radar_ScanPass x during queueCreated s).state.g_currentAngle = s.g_currentAngle ∧
        (Radar_ScanPass x during queueCreated s).state.g_currentDistance =
          s.g_currentDistance ∧
        (Radar_ScanPass x during queueCreated s).state.g_alarmState = s.g_alarmState) := by
  have hc := run_counter acts
  have hle : (run acts).g_distanceUpdateCounter ≤ 9 := by rw [hc]; omega
  have hab : ∀ (x : ℚ) (during : List Control) (queueCreated : Bool) (s : RadarState),
      s.g_scanEnabled = true →
      (runFrom s (during.map Control.toAction)).g_scanEnabled = false →
      (Radar_ScanPass x during queueCreated s).effects =
          Effect.set_sg90_angle s.currentAngle ::
            (if s.g_distanceUpdateCounter ≥ 9 then [Effect.sr04_read_distance] else []) ∧
        published (Radar_ScanPass x during queueCreated s).effects = [] ∧
        (Radar_ScanPass x during queueCreated s).state.g_distanceUpdateCounter =
          s.g_distanceUpdateCounter ∧
        (Radar_ScanPass x during queueCreated s).state.currentAngle = s.currentAngle ∧
        (Radar_ScanPass x during queueCreated s).state.direction = s.direction ∧
        (Radar_ScanPass x during queueCreated s).state.g_currentAngle = s.g_currentAngle ∧
        (Radar_ScanPass x during queueCreated s).state.g_currentDistance =
          s.g_currentDistance ∧
        (Radar_ScanPass x during queueCreated s).state.g_alarmState = s.g_alarmState := by
    intro x during queueCreated s hen hoff
    have hf := controls_frame during s
    rw [scanPass_aborted x during queueCreated s hen hoff]
    refine ⟨rfl, ?_, hf.1, hf.2.1, hf.2.2.1, hf.2.2.2.2.2, hf.2.2.2.1, hf.2.2.2.2.1⟩
    show published (Effect.set_sg90_angle s.currentAngle ::
      (if s.g_distanceUpdateCounter ≥ 9 then [Effect.sr04_read_distance] else [])) = []
    split_ifs <;> rfl
  refine ⟨hc, hle, ?_, ?_, scanPass_atomic, hab⟩
  · cases hen : (run acts).g_scanEnabled with
    | false =>
      rw [scanCycle_disabled sensor _ hen]
      simp
    | true =>
      by_cases h9 : (run acts).g_distanceUpdateCounter < 9
      · rw [scanCycle_quiet sensor _ hen h9]
        have : (enabledCycles initState acts + 1) % 10 ≠ 0 := by omega
        simp [this]
      · have hs : Sampling (run acts) := ⟨hen, by omega, by omega⟩
        rw [scanCycle_sampling sensor _ hs]
        have : (enabledCycles initState acts + 1) % 10 = 0 := by omega
        simp [this]
  · rintro ⟨hen, hn⟩
    have h9 : (run acts).g_distanceUpdateCounter < 9 := by omega
    rw [scanCycle_quiet sensor _ hen h9]
    simp [published]

/-- For C9: after nine enabled cycles the tenth reads the sensor; after four
enabled cycles (with a stop and a start in between) the fifth does not, and
leaves the filtered distance as it was. -/
theorem sampling_cadence_witness :
    Effect.sr04_read_distance ∈
        (Radar_ScanCycle 20 (run (List.replicate 9 (Action.scan 20)))).effects ∧
    Effect.sr04_read_distance ∉
        (Radar_ScanCycle 20 (run [Action.scan 20, Action.scan 20,
          Action.key KeyValue.KEY2_PRESS 1000, Action.scan 20,
          Action.key KeyValue.KEY1_PRESS 2000, Action.scan 20, Action.scan 20])).effects ∧
    (Radar_ScanCycle 20 (run [Action.scan 20, Action.scan 20,
          Action.key KeyValue.KEY2_PRESS 1000, Action.scan 20,
          Action.key KeyValue.KEY1_PRESS 2000, Action.scan 20,
          Action.scan 20])).state.g_currentDistance = 0 :=
  ⟨(sampling_cadence (List.replicate 9 (Action.scan 20)) 20).2.2.1.mpr (by decide),
   fun h => absurd ((sampling_cadence _ 20).2.2.1.mp h).2 (by decide),
   ((sampling_cadence [Action.scan 20, Action.scan 20,
      Action.key KeyValue.KEY2_PRESS 1000, Action.scan 20,
      Action.key KeyValue.KEY1_PRESS 2000, Action.scan 20, Action.scan 20] 20).2.2.2.1
        (by decide)).1⟩

/-! ## Data queue -/

theorem deliver_eq_foldl (es : List Effect) :
    ∀ q : MessageQueue, deliver q es = (published es).foldl osMessageQueuePut q := by
  induction es with
  | nil => intro q; rfl
  | cons e es ih => intro q; cases e <;> simp [deliver, published, ih]

/-- C10: queue latest-wins: when the scan task publishes `S1` in one cycle and
`S2` in a later one with no drain in between, the next drain of the one-slot
queue returns `S2` and leaves the queue empty. -/
theorem queue_latest_wins (q : MessageQueue) (r1 r2 : ℚ) (s1 s2 : RadarState)
    (S1 S2 : RadarData_t)
    (h1 : published (Radar_ScanCycle r1 s1).effects = [S1])
    (h2 : published (Radar_ScanCycle r2 s2).effects = [S2]) :
    osMessageQueueGet
        (deliver (deliver q (Radar_ScanCycle r1 s1).effects) (Radar_ScanCycle r2 s2).effects) =
      (some S2, osMessageQueueNew) ∧
    osMessageQueueGet (osMessageQueuePut (osMessageQueuePut q S1) S2) =
      (some S2, osMessageQueueNew) := by
  rw [deliver_eq_foldl, deliver_eq_foldl, h1, h2]
  exact ⟨rfl, rfl⟩

/-- For C10: a sample at 5 cm followed, undrained, by one at 9.5 cm: the
drain returns the second. -/
theorem queue_latest_wins_witness :
    osMessageQueueGet
        (deliver (deliver osMessageQueueNew (Radar_ScanCycle 5 (samplingState 0)).effects)
          (Radar_ScanCycle 20 (samplingState 5)).effects) =
      (some ⟨19 / 2, 90, ALARM_DANGER, SYSTEM_ALARM⟩, osMessageQueueNew) :=
  (queue_latest_wins osMessageQueueNew 5 20 (samplingState 0) (samplingState 5)
    ⟨5, 90, ALARM_DANGER, SYSTEM_ALARM⟩ ⟨19 / 2, 90, ALARM_DANGER, SYSTEM_ALARM⟩
    (by decide)
    (by
      have hf : filterDistance 20 5 = 19 / 2 := by
        simp only [filterDistance]; norm_num
      have ha : Get_AlarmState (19 / 2) = ALARM_DANGER := by
        simp only [Get_AlarmState, ALARM_DISTANCE_CM]; norm_num
      rw [scanCycle_sampling 20 (samplingState 5) (by decide)]
      simp [published, samplingState, initState, hf, ha])).1

/-! ## Remote control -/

/-- The model of `strstr` succeeds exactly when the needle is a contiguous
block of the haystack. -/
theorem strstr_iff_substring (hay needle : List Char) :
    strstr hay needle = true ↔ needle <:+: hay := by
  induction hay with
  | nil =>
    simp only [strstr, List.infix_nil, List.isEmpty_iff]
  | cons c cs ih =>
    simp only [strstr, Bool.or_eq_true, ih, List.infix_cons_iff, List.isPrefixOf_iff_prefix]

theorem strstr_false_iff (hay needle : List Char) :
    strstr hay needle = false ↔ ¬ needle <:+: hay := by
  rw [← strstr_iff_substring, Bool.not_eq_true]

/-- C11: for every shared state and every payload containing "STOP", the
callback on the control topic sets `g_scanEnabled` to false and
`g_systemState` to `SYSTEM_STOPPED`, commands the actuator to 90, and leaves
`g_currentAngle`, `g_currentDistance` and `g_alarmState` unchanged. -/
theorem mqtt_stop (topic payload : List Char) (acquired : Bool) (s : RadarState)
    (htopic : "control".toList <:+: topic)
    (hstop : "STOP".toList <:+: payload) :
    (MQTT_SubCallback topic payload acquired s).state.g_scanEnabled = false ∧
    (MQTT_SubCallback topic payload acquired s).state.g_systemState = SYSTEM_STOPPED ∧
    (MQTT_SubCallback topic payload acquired s).effects = [Effect.set_sg90_angle 90] ∧
    (MQTT_SubCallback topic payload acquired s).state.g_currentAngle = s.g_currentAngle ∧
    (MQTT_SubCallback topic payload acquired s).state.g_currentDistance =
      s.g_currentDistance ∧
    (MQTT_SubCallback topic payload acquired s).state.g_alarmState = s.g_alarmState := by
  have ht := (strstr_iff_substring _ _).mpr htopic
  have hp := (strstr_iff_substring _ _).mpr hstop
  have h : MQTT_SubCallback topic payload acquired s =
      ⟨0, { s with g_scanEnabled := false, g_systemState := SYSTEM_STOPPED },
        [Effect.set_sg90_angle 90]⟩ := by
    unfold MQTT_SubCallback
    rw [if_pos ht]
    exact if_pos hp
  rw [h]
  exact ⟨rfl, rfl, rfl, rfl, rfl, rfl⟩

/-- For C11: "STOP" on the control topic, from the initial state. -/
theorem mqtt_stop_witness :
    (MQTT_SubCallback MQTT_TOPIC_CONTROL "STOP".toList true initState).state.g_scanEnabled
      = false ∧
    (MQTT_SubCallback MQTT_TOPIC_CONTROL "STOP".toList true initState).state.g_systemState
      = SYSTEM_STOPPED ∧
    (MQTT_SubCallback MQTT_TOPIC_CONTROL "STOP".toList true initState).effects
      = [Effect.set_sg90_angle 90] :=
  have h := mqtt_stop MQTT_TOPIC_CONTROL "STOP".toList true initState
    ⟨"hi3861/radar/".toList, [], rfl⟩ ⟨[], [], rfl⟩
  ⟨h.1, h.2.1, h.2.2.1⟩

/-- C12: for every shared state and every payload that contains "START"
anywhere and does not contain "STOP", the callback on the control topic sets
`g_scanEnabled` to true and `g_systemState` to `SYSTEM_SCANNING`, issues no
actuator command, and leaves `g_currentAngle`, `g_currentDistance` and
`g_alarmState` unchanged. -/
theorem mqtt_start (topic payload : List Char) (acquired : Bool) (s : RadarState)
    (htopic : "control".toList <:+: topic)
    (hstart : "START".toList <:+: payload)
    (hstop : ¬ "STOP".toList <:+: payload) :
    (MQTT_SubCallback topic payload acquired s).state.g_scanEnabled = true ∧
    (MQTT_SubCallback topic payload acquired s).state.g_systemState = SYSTEM_SCANNING ∧
    (MQTT_SubCallback topic payload acquired s).effects = [] ∧
    (MQTT_SubCallback topic payload acquired s).state.g_currentAngle = s.g_currentAngle ∧
    (MQTT_SubCallback topic payload acquired s).state.g_currentDistance =
      s.g_currentDistance ∧
    (MQTT_SubCallback topic payload acquired s).state.g_alarmState = s.g_alarmState := by
  have ht := (strstr_iff_substring _ _).mpr htopic
  have hst := (strstr_iff_substring _ _).mpr hstart
  have hns : ¬ strstr payload "STOP".toList = true := fun h =>
    hstop ((strstr_iff_substring _ _).mp h)
  have h : MQTT_SubCallback topic payload acquired s =
      ⟨0, { s with g_scanEnabled := true, g_systemState := SYSTEM_SCANNING }, []⟩ := by
    unfold MQTT_SubCallback
    rw [if_pos ht]
    show (if strstr payload "STOP".toList = true then _ else _) = _
    rw [if_neg hns]
    exact if_pos hst
  rw [h]
  exact ⟨rfl, rfl, rfl, rfl, rfl, rfl⟩

/-- For C12: "STARTxyz" on the control topic, in a stopped state. -/
theorem mqtt_start_witness :
    (MQTT_SubCallback MQTT_TOPIC_CONTROL "STARTxyz".toList true
      { initState with g_scanEnabled := false, g_systemState := SYSTEM_STOPPED }).state.g_scanEnabled
      = true ∧
    (MQTT_SubCallback MQTT_TOPIC_CONTROL "STARTxyz".toList true
      { initState with g_scanEnabled := false, g_systemState := SYSTEM_STOPPED }).state.g_systemState
      = SYSTEM_SCANNING :=
  have h := mqtt_start MQTT_TOPIC_CONTROL "STARTxyz".toList true
    { initState with g_scanEnabled := false, g_systemState := SYSTEM_STOPPED }
    ⟨"hi3861/radar/".toList, [], rfl⟩ ⟨[], "xyz".toList, rfl⟩
    ((strstr_false_iff _ _).mp (by decide))
  ⟨h.1, h.2.1⟩

/-- C13: for every payload that contains neither "STOP" nor "START", and for
every message whose topic does not contain "control", the callback leaves the
whole state unchanged, issues no actuator command and returns 0. -/
theorem mqtt_ignored (topic payload : List Char) (acquired : Bool) (s : RadarState)
    (h : ¬ "control".toList <:+: topic ∨
      (¬ "STOP".toList <:+: payload ∧ ¬ "START".toList <:+: payload)) :
    MQTT_SubCallback topic payload acquired s = ⟨0, s, []⟩ := by
  unfold MQTT_SubCallback
  rcases h with h | ⟨h1, h2⟩
  · have hn : ¬ strstr topic "control".toList = true := fun h0 =>
      h ((strstr_iff_substring _ _).mp h0)
    exact if_neg hn
  · have hn1 : ¬ strstr payload "STOP".toList = true := fun h0 =>
      h1 ((strstr_iff_substring _ _).mp h0)
    have hn2 : ¬ strstr payload "START".toList = true := fun h0 =>
      h2 ((strstr_iff_substring _ _).mp h0)
    by_cases ht : strstr topic "control".toList = true
    · rw [if_pos ht]
      show (if strstr payload "STOP".toList = true then _ else _) = _
      rw [if_neg hn1]
      exact if_neg hn2
    · exact if_neg ht

/-- For C13: "PAUSE" on the control topic, and "STOP" on the data topic, are
both ignored. -/
theorem mqtt_ignored_witness :
    MQTT_SubCallback MQTT_TOPIC_CONTROL "PAUSE".toList true initState = ⟨0, initState, []⟩ ∧
    MQTT_SubCallback MQTT_TOPIC_DATA "STOP".toList true initState = ⟨0, initState, []⟩ :=
  ⟨mqtt_ignored MQTT_TOPIC_CONTROL "PAUSE".toList true initState
      (Or.inr ⟨(strstr_false_iff _ _).mp (by decide), (strstr_false_iff _ _).mp (by decide)⟩),
   mqtt_ignored MQTT_TOPIC_DATA "STOP".toList true initState
      (Or.inl ((strstr_false_iff _ _).mp (by decide)))⟩

/-- C14 fails as stated: with the lock not acquired, "STOP" on the control
topic still disables scanning, sets `SYSTEM_STOPPED` and commands the actuator
to 90, and "START" still enables scanning. -/
theorem mqtt_lock_timeout_counterexample :
    (MQTT_SubCallback MQTT_TOPIC_CONTROL "STOP".toList false initState).state ≠ initState ∧
    (MQTT_SubCallback MQTT_TOPIC_CONTROL "STOP".toList false initState).state.g_scanEnabled
      = false ∧
    (MQTT_SubCallback MQTT_TOPIC_CONTROL "STOP".toList false initState).state.g_systemState
      = SYSTEM_STOPPED ∧
    (MQTT_SubCallback MQTT_TOPIC_CONTROL "STOP".toList false initState).effects
      = [Effect.set_sg90_angle 90] ∧
    (MQTT_SubCallback MQTT_TOPIC_CONTROL "START".toList false
      { initState with g_scanEnabled := false, g_systemState := SYSTEM_STOPPED }).state.g_scanEnabled
      = true := by
  decide

/-- C14 as amended: the callback does not look at whether the lock was
acquired: for every topic, payload and state, a failed acquisition gives the
same state, the same actuator commands and the same return value as a
successful one. -/
theorem mqtt_lock_status_ignored (topic payload : List Char) (s : RadarState) :
    MQTT_SubCallback topic payload false s = MQTT_SubCallback topic payload true s := by
  unfold MQTT_SubCallback
  rfl

theorem mqtt_started (acquired : Bool) (s : RadarState) :
    (MQTT_SubCallback MQTT_TOPIC_CONTROL "START".toList acquired s).state.g_scanEnabled
      = true := by
  have ht : strstr MQTT_TOPIC_CONTROL "control".toList = true := by decide
  have hp : ¬ strstr "START".toList "STOP".toList = true := by decide
  have hq : strstr "START".toList "START".toList = true := by decide
  have h : MQTT_SubCallback MQTT_TOPIC_CONTROL "START".toList acquired s =
      ⟨0, { s with g_scanEnabled := true, g_systemState := SYSTEM_SCANNING }, []⟩ := by
    unfold MQTT_SubCallback
    rw [if_pos ht]
    show (if strstr "START".toList "STOP".toList = true then _ else _) = _
    rw [if_neg hp]
    exact if_pos hq
  rw [h]

/-! ## Idle cycles -/

theorem scans_disabled (sensors : List ℚ) (s : RadarState) (hen : s.g_scanEnabled = false) :
    runFrom s (sensors.map Action.scan) = s := by
  induction sensors with
  | nil => rfl
  | cons x xs ih =>
    rw [List.map_cons, runFrom_cons]
    have h1 : step s (Action.scan x) = s := by
      simp only [step, scanCycle_disabled x s hen]
    rw [h1]
    exact ih

theorem scanCycle_first_effect (sensor : ℚ) (s : RadarState) (hen : s.g_scanEnabled = true) :
    (Radar_ScanCycle sensor s).effects.head? = some (Effect.set_sg90_angle s.currentAngle) := by
  unfold Radar_ScanCycle
  simp [hen]

/-- C15: a scan cycle that starts with `g_scanEnabled` false issues no
actuator command, reads no sensor value, publishes no sample and leaves the
cursor, the counter and every shared field unchanged, and so does any number
of such cycles; when a START message then enables scanning, the next cycle
commands the actuator to the same angle and steps from the same angle and
direction. -/
theorem scan_disabled_is_idle (sensor : ℚ) (s : RadarState)
    (hen : s.g_scanEnabled = false) :
    Radar_ScanCycle sensor s = ⟨s, []⟩ ∧
    (∀ sensors : List ℚ, runFrom s (sensors.map Action.scan) = s) ∧
    (∀ (sensors : List ℚ) (acquired : Bool) (next : ℚ),
      (Radar_ScanCycle next
          (MQTT_SubCallback MQTT_TOPIC_CONTROL "START".toList acquired
            (runFrom s (sensors.map Action.scan))).state).effects.head? =
        some (Effect.set_sg90_angle s.currentAngle) ∧
      ((Radar_ScanCycle next
          (MQTT_SubCallback MQTT_TOPIC_CONTROL "START".toList acquired
            (runFrom s (sensors.map Action.scan))).state).state.currentAngle,
       (Radar_ScanCycle next
          (MQTT_SubCallback MQTT_TOPIC_CONTROL "START".toList acquired
            (runFrom s (sensors.map Action.scan))).state).state.direction) =
        stepAngle s.currentAngle s.direction) := by
  refine ⟨scanCycle_disabled sensor s hen, fun sensors => scans_disabled sensors s hen, ?_⟩
  intro sensors acquired next
  rw [scans_disabled sensors s hen]
  have hst := mqtt_started acquired s
  have hfr := MQTT_SubCallback_frame MQTT_TOPIC_CONTROL "START".toList acquired s
  constructor
  · rw [scanCycle_first_effect next _ hst, hfr.2.2.2.2.1]
  · rw [scanCycle_cursor, hst, if_pos rfl, hfr.2.2.2.2.1, hfr.2.2.2.2.2.1]

/-- For C15: after a STOP at angle 95 going up, idle cycles change nothing,
and the cycle after a START commands 95 and moves the cursor to 100. -/
theorem scan_disabled_is_idle_witness :
    Radar_ScanCycle 20 (run [Action.scan 20, Action.mqtt MQTT_TOPIC_CONTROL "STOP".toList true])
      = ⟨run [Action.scan 20, Action.mqtt MQTT_TOPIC_CONTROL "STOP".toList true], []⟩ ∧
    (run [Action.scan 20, Action.mqtt MQTT_TOPIC_CONTROL "STOP".toList true]).currentAngle
      = 95 :=
  ⟨(scan_disabled_is_idle 20
      (run [Action.scan 20, Action.mqtt MQTT_TOPIC_CONTROL "STOP".toList true])
      (by decide)).1,
   by decide⟩

/-! ## Keys -/

theorem Key_ScanStep_accepted (k : KeyValue) (t : Nat) (s : RadarState)
    (hk : k ≠ KeyValue.NONE) (hacc : (t % U32 + U32 - s.lastPressTime) % U32 > 300) :
    Key_ScanStep k t s =
      ⟨{ (if k = KeyValue.KEY1_PRESS then
            (if !s.g_scanEnabled then
              (⟨{ s with g_scanEnabled := true, g_systemState := SYSTEM_SCANNING }, []⟩ : Outcome)
             else ⟨s, []⟩)
          else if k = KeyValue.KEY2_PRESS then
            (if s.g_scanEnabled then
              ⟨{ s with g_scanEnabled := false, g_systemState := SYSTEM_STOPPED },
                [Effect.set_sg90_angle 90]⟩
             else ⟨s, []⟩)
          else ⟨s, []⟩).state with lastPressTime := t % U32 },
        (if k = KeyValue.KEY1_PRESS then
            (if !s.g_scanEnabled then
              (⟨{ s with g_scanEnabled := true, g_systemState := SYSTEM_SCANNING }, []⟩ : Outcome)
             else ⟨s, []⟩)
          else if k = KeyValue.KEY2_PRESS then
            (if s.g_scanEnabled then
              ⟨{ s with g_scanEnabled := false, g_systemState := SYSTEM_STOPPED },
                [Effect.set_sg90_angle 90]⟩
             else ⟨s, []⟩)
          else ⟨s, []⟩).effects⟩ := by
  unfold Key_ScanStep
  rw [if_pos hk, if_pos hacc]

theorem Key_ScanStep_rejected (k : KeyValue) (t : Nat) (s : RadarState)
    (hrej : (t % U32 + U32 - s.lastPressTime) % U32 ≤ 300) :
    Key_ScanStep k t s = ⟨s, []⟩ := by
  unfold Key_ScanStep
  have h : ¬ (t % U32 + U32 - s.lastPressTime) % U32 > 300 := by omega
  split_ifs <;> rfl

/-- C16 fails as stated: in the shared state with scanning disabled and
`SYSTEM_SCANNING`, an accepted press of key 2 (tick 1000, last accepted press
at tick 0) changes only `lastPressTime`, so `g_systemState` is still
`SYSTEM_SCANNING`, not `SYSTEM_STOPPED`. -/
theorem key_press_effects_counterexample :
    (1000 % U32 + U32 - ({ initState with g_scanEnabled := false } : RadarState).lastPressTime)
      % U32 > 300 ∧
    (Key_ScanStep KeyValue.KEY2_PRESS 1000
      { initState with g_scanEnabled := false }).state.g_systemState = SYSTEM_SCANNING ∧
    (Key_ScanStep KeyValue.KEY2_PRESS 1000
      { initState with g_scanEnabled := false }).state.g_systemState ≠ SYSTEM_STOPPED ∧
    (Key_ScanStep KeyValue.KEY2_PRESS 1000
      { initState with g_scanEnabled := false }).state.g_scanEnabled = false := by
  decide

/-- C16 as amended: for every shared state, an accepted press of key 1 results
in `g_scanEnabled` true (with `SYSTEM_SCANNING` if scanning was disabled); an
accepted press of key 2 results in `g_scanEnabled` false, and in
`SYSTEM_STOPPED` with the actuator commanded to 90 when scanning was enabled
before the press; when scanning was already disabled key 2 changes only
`lastPressTime`, so `SYSTEM_STOPPED` then holds wherever disabled implies
stopped, in particular in every reachable state; every accepted press records
its tick, so any press 300 ticks or less after it changes nothing; and a
press arriving 300 ticks or less after the previously accepted press changes
nothing. -/
theorem key_press_effects (s : RadarState) (t : Nat)
    (hacc : (t % U32 + U32 - s.lastPressTime) % U32 > 300) :
    Key_ScanStep KeyValue.KEY1_PRESS t s =
      (if s.g_scanEnabled then ⟨{ s with lastPressTime := t % U32 }, []⟩
       else ⟨{ s with g_scanEnabled := true, g_systemState := SYSTEM_SCANNING,
                      lastPressTime := t % U32 }, []⟩) ∧
    Key_ScanStep KeyValue.KEY2_PRESS t s =
      (if s.g_scanEnabled then
        ⟨{ s with g_scanEnabled := false, g_systemState := SYSTEM_STOPPED,
                  lastPressTime := t % U32 }, [Effect.set_sg90_angle 90]⟩
       else ⟨{ s with lastPressTime := t % U32 }, []⟩) ∧
    (Key_ScanStep KeyValue.KEY1_PRESS t s).state.g_scanEnabled = true ∧
    (Key_ScanStep KeyValue.KEY2_PRESS t s).state.g_scanEnabled = false ∧
    (s.g_scanEnabled = true →
      (Key_ScanStep KeyValue.KEY2_PRESS t s).state.g_systemState = SYSTEM_STOPPED ∧
      (Key_ScanStep KeyValue.KEY2_PRESS t s).effects = [Effect.set_sg90_angle 90]) ∧
    ((s.g_scanEnabled = false → s.g_systemState = SYSTEM_STOPPED) →
      (Key_ScanStep KeyValue.KEY2_PRESS t s).state.g_systemState = SYSTEM_STOPPED) ∧
    (∀ acts : List Action, s = run acts →
      (Key_ScanStep KeyValue.KEY2_PRESS t s).state.g_systemState = SYSTEM_STOPPED) ∧
    (∀ k : KeyValue, k ≠ KeyValue.NONE →
      (Key_ScanStep k t s).state.lastPressTime = t % U32) ∧
    (∀ (k k2 : KeyValue) (u : Nat), k ≠ KeyValue.NONE →
      (u % U32 + U32 - t % U32) % U32 ≤ 300 →
      Key_ScanStep k2 u (Key_ScanStep k t s).state = ⟨(Key_ScanStep k t s).state, []⟩) ∧
    (∀ (k : KeyValue) (u : Nat) (s1 : RadarState),
      (u % U32 + U32 - s1.lastPressTime) % U32 ≤ 300 → Key_ScanStep k u s1 = ⟨s1, []⟩) := by
  have h1 : Key_ScanStep KeyValue.KEY1_PRESS t s =
      (if s.g_scanEnabled then ⟨{ s with lastPressTime := t % U32 }, []⟩
       else ⟨{ s with g_scanEnabled := true, g_systemState := SYSTEM_SCANNING,
                      lastPressTime := t % U32 }, []⟩) := by
    rw [Key_ScanStep_accepted _ t _ (by decide) hacc]
    cases hen : s.g_scanEnabled <;> simp [hen]
  have h2 : Key_ScanStep KeyValue.KEY2_PRESS t s =
      (if s.g_scanEnabled then
        ⟨{ s with g_scanEnabled := false, g_systemState := SYSTEM_STOPPED,
                  lastPressTime := t % U32 }, [Effect.set_sg90_angle 90]⟩
       else ⟨{ s with lastPressTime := t % U32 }, []⟩) := by
    rw [Key_ScanStep_accepted _ t _ (by decide) hacc]
    cases hen : s.g_scanEnabled <;> simp [hen]
  have hlast : ∀ k : KeyValue, k ≠ KeyValue.NONE →
      (Key_ScanStep k t s).state.lastPressTime = t % U32 := by
    intro k hk
    rw [Key_ScanStep_accepted k t s hk hacc]
  have hstop : (s.g_scanEnabled = false → s.g_systemState = SYSTEM_STOPPED) →
      (Key_ScanStep KeyValue.KEY2_PRESS t s).state.g_systemState = SYSTEM_STOPPED := by
    intro hinv
    rw [h2]
    cases hen : s.g_scanEnabled
    · simpa [hen] using hinv hen
    · simp [hen]
  refine ⟨h1, h2, ?_, ?_, ?_, hstop, ?_, hlast, ?_,
    fun k u s1 h => Key_ScanStep_rejected k u s1 h⟩
  · rw [h1]; cases hen : s.g_scanEnabled <;> simp [hen]
  · rw [h2]; cases hen : s.g_scanEnabled <;> simp [hen]
  · intro hen
    rw [h2]; simp [hen]
  · intro acts hs
    apply hstop
    rw [hs]
    exact (run_coherent acts).2.mp
  · intro k k2 u hk hu
    apply Key_ScanStep_rejected
    rw [hlast k hk]
    exact hu

/-- For C16: from the initial state, key 2 at tick 1000 stops the scan,
recentres the actuator and records tick 1000; key 1 at tick 1200 is within 300
ticks of it and changes nothing; key 1 at tick 1400 enables scanning again. -/
theorem key_press_effects_witness :
    Key_ScanStep KeyValue.KEY2_PRESS 1000 initState =
      ⟨{ initState with g_scanEnabled := false, g_systemState := SYSTEM_STOPPED,
                        lastPressTime := 1000 }, [Effect.set_sg90_angle 90]⟩ ∧
    Key_ScanStep KeyValue.KEY1_PRESS 1200
        (Key_ScanStep KeyValue.KEY2_PRESS 1000 initState).state =
      ⟨(Key_ScanStep KeyValue.KEY2_PRESS 1000 initState).state, []⟩ ∧
    (Key_ScanStep KeyValue.KEY1_PRESS 1400
      (run [Action.key KeyValue.KEY2_PRESS 1000])).state.g_scanEnabled = true :=
  ⟨(key_press_effects initState 1000 (by decide)).2.1,
   (key_press_effects initState 1000 (by decide)).2.2.2.2.2.2.2.2.1
      KeyValue.KEY2_PRESS KeyValue.KEY1_PRESS 1200 (by decide) (by decide),
   (key_press_effects (run [Action.key KeyValue.KEY2_PRESS 1000]) 1400 (by decide)).2.2.1⟩

/-! ## Published snapshot -/

/-- Whatever a scan cycle publishes is the shared state it has just written. -/
theorem published_eq_shared (sensor : ℚ) (s : RadarState) (d : RadarData_t)
    (hd : d ∈ published (Radar_ScanCycle sensor s).effects) :
    d = { distance := (Radar_ScanCycle sensor s).state.g_currentDistance
          angle := (Radar_ScanCycle sensor s).state.g_currentAngle
          alarmState := (Radar_ScanCycle sensor s).state.g_alarmState
          sysState := (Radar_ScanCycle sensor s).state.g_systemState } := by
  unfold Radar_ScanCycle at hd ⊢
  by_cases hen : s.g_scanEnabled = true
  · simp only [hen, Bool.not_true, Bool.false_eq_true, if_false, published_append] at hd ⊢
    by_cases h9 : s.g_distanceUpdateCounter ≥ 9 <;>
      by_cases h10 : (s.g_distanceUpdateCounter + 1) % U8 ≥ 10 <;>
      simp [h9, h10, published] at hd ⊢ <;> exact hd
  · simp only [Bool.not_eq_true] at hen
    simp [hen, published] at hd

/-- C18: on a sampling cycle the one `RadarData_t` put on the queue is a
snapshot of the shared state just written: its angle is `g_currentAngle`, the
angle commanded to the actuator in this cycle before stepping; its distance is
the new `g_currentDistance`; its alarm state is `Get_AlarmState` of that
distance; and its system state is `g_systemState`, which is `SYSTEM_ALARM` if
the alarm state is `ALARM_DANGER` and `SYSTEM_SCANNING` otherwise. -/
theorem published_is_snapshot (sensor : ℚ) (s : RadarState) (hs : Sampling s) :
    published (Radar_ScanCycle sensor s).effects =
      [{ distance := (Radar_ScanCycle sensor s).state.g_currentDistance
         angle := (Radar_ScanCycle sensor s).state.g_currentAngle
         alarmState := (Radar_ScanCycle sensor s).state.g_alarmState
         sysState := (Radar_ScanCycle sensor s).state.g_systemState }] ∧
    (Radar_ScanCycle sensor s).state.g_currentAngle = s.currentAngle ∧
    (Radar_ScanCycle sensor s).effects.head? = some (Effect.set_sg90_angle s.currentAngle) ∧
    (Radar_ScanCycle sensor s).state.g_currentDistance =
      filterDistance sensor s.g_currentDistance ∧
    (Radar_ScanCycle sensor s).state.g_alarmState =
      Get_AlarmState (Radar_ScanCycle sensor s).state.g_currentDistance ∧
    (Radar_ScanCycle sensor s).state.g_systemState =
      (if (Radar_ScanCycle sensor s).state.g_alarmState = ALARM_DANGER then SYSTEM_ALARM
       else SYSTEM_SCANNING) ∧
    (∀ (sensor' : ℚ) (s' : RadarState) (d : RadarData_t),
      d ∈ published (Radar_ScanCycle sensor' s').effects →
      d = { distance := (Radar_ScanCycle sensor' s').state.g_currentDistance
            angle := (Radar_ScanCycle sensor' s').state.g_currentAngle
            alarmState := (Radar_ScanCycle sensor' s').state.g_alarmState
            sysState := (Radar_ScanCycle sensor' s').state.g_systemState }) := by
  refine ⟨?_, ?_, ?_, ?_, ?_, ?_, published_eq_shared⟩
  all_goals rw [scanCycle_sampling sensor s hs]
  all_goals simp [published]

/-- For C18: with no estimate yet, a sampling cycle at angle 90 reading 5 cm
publishes distance 5, angle 90, Danger, Alarm. -/
theorem published_is_snapshot_witness :
    published (Radar_ScanCycle 5 (samplingState 0)).effects =
      [⟨5, 90, ALARM_DANGER, SYSTEM_ALARM⟩] := by
  rw [(published_is_snapshot 5 (samplingState 0) (by decide)).1]
  decide

/-! ## Range of the filtered distance -/

theorem run_append (acts more : List Action) :
    run (acts ++ more) = runFrom (run acts) more := by
  simp [run, runFrom, List.foldl_append]

theorem filterDistance_range (r p : ℚ) (h0 : 0 ≤ p) (h400 : p < 400) :
    0 ≤ filterDistance r p ∧ filterDistance r p < 400 ∧ (0 < p → 0 < filterDistance r p) := by
  unfold filterDistance
  by_cases h1 : r ≥ 0
  · rw [if_pos h1]
    by_cases h2 : r ≤ 0 ∨ r ≥ 400
    · simp only [if_pos h2]
      by_cases h4 : p = 0
      · rw [if_pos h4]; exact ⟨h0, h400, fun h => h⟩
      · rw [if_neg h4, blend_self]; exact ⟨h0, h400, fun h => h⟩
    · simp only [if_neg h2]
      have hr0 : 0 < r := by
        by_contra hc
        exact h2 (Or.inl (not_lt.mp hc))
      have hr400 : r < 400 := by
        by_contra hc
        exact h2 (Or.inr (not_lt.mp hc))
      by_cases h3 : p > 0 ∧ (r > p + 50 ∨ r < p - 50)
      · simp only [if_pos h3]
        by_cases h4 : p = 0
        · rw [if_pos h4]; exact ⟨h0, h400, fun h => h⟩
        · rw [if_neg h4, blend_self]; exact ⟨h0, h400, fun h => h⟩
      · simp only [if_neg h3]
        by_cases h4 : p = 0
        · rw [if_pos h4]
          exact ⟨le_of_lt hr0, hr400, fun _ => hr0⟩
        · rw [if_neg h4]
          refine ⟨by linarith, by linarith, fun _ => by linarith⟩
  · rw [if_neg h1]
    exact ⟨h0, h400, fun h => h⟩

/-- The filtered distance after a scan cycle is the one before, or the filter
applied to it. -/
theorem scanCycle_distance (sensor : ℚ) (s : RadarState) :
    (Radar_ScanCycle sensor s).state.g_currentDistance = s.g_currentDistance ∨
    ∃ raw : ℚ, (Radar_ScanCycle sensor s).state.g_currentDistance =
      filterDistance raw s.g_currentDistance := by
  unfold Radar_ScanCycle
  by_cases hen : s.g_scanEnabled = true
  · simp only [hen, Bool.not_true, Bool.false_eq_true, if_false]
    by_cases h10 : (s.g_distanceUpdateCounter + 1) % U8 ≥ 10
    · right
      by_cases h9 : s.g_distanceUpdateCounter ≥ 9
      · exact ⟨sensor, by simp [h9, h10]⟩
      · exact ⟨-1, by simp [h9, h10]⟩
    · left
      simp [h10]
  · simp only [Bool.not_eq_true] at hen
    left
    simp [hen]

theorem step_distance (s : RadarState) (a : Action) :
    (step s a).g_currentDistance = s.g_currentDistance ∨
    ∃ raw : ℚ, (step s a).g_currentDistance = filterDistance raw s.g_currentDistance := by
  cases a with
  | scan sensor => exact scanCycle_distance sensor s
  | key k t => exact Or.inl (Key_ScanStep_frame k t s).2.2.1
  | mqtt topic payload acq => exact Or.inl (MQTT_SubCallback_frame topic payload acq s).2.2.1

theorem step_distanceOk (s : RadarState) (a : Action) (h : DistanceOk s) :
    DistanceOk (step s a) := by
  obtain ⟨h0, h400⟩ := h
  unfold DistanceOk
  rcases step_distance s a with he | ⟨raw, he⟩
  · rw [he]; exact ⟨h0, h400⟩
  · rw [he]
    have := filterDistance_range raw _ h0 h400
    exact ⟨this.1, this.2.1⟩

theorem step_distance_pos (s : RadarState) (a : Action)
    (h : DistanceOk s ∧ 0 < s.g_currentDistance) :
    DistanceOk (step s a) ∧ 0 < (step s a).g_currentDistance := by
  obtain ⟨hok, hpos⟩ := h
  refine ⟨step_distanceOk s a hok, ?_⟩
  rcases step_distance s a with he | ⟨raw, he⟩
  · rw [he]; exact hpos
  · rw [he]
    exact (filterDistance_range raw _ hok.1 hok.2).2.2 hpos

theorem run_distanceOk (acts : List Action) : DistanceOk (run acts) :=
  runFrom_preserves DistanceOk step_distanceOk acts initState
    (by unfold DistanceOk initState; norm_num)

/-- C19: for every run, whatever the sensor readings, the filtered distance
starts at 0 and satisfies `0 ≤ g_currentDistance < 400` after every step;
once positive it stays positive; and so the distance that the scan cycle
passes to `Get_AlarmState` is never above 400. -/
theorem filtered_distance_range (acts : List Action) :
    (run []).g_currentDistance = 0 ∧
    (0 ≤ (run acts).g_currentDistance ∧ (run acts).g_currentDistance < 400) ∧
    (∀ more : List Action, 0 < (run acts).g_currentDistance →
      0 < (run (acts ++ more)).g_currentDistance) ∧
    (∀ sensor : ℚ,
      0 ≤ (Radar_ScanCycle sensor (run acts)).state.g_currentDistance ∧
      ¬ (Radar_ScanCycle sensor (run acts)).state.g_currentDistance > 400) := by
  have hok := run_distanceOk acts
  refine ⟨rfl, hok, ?_, ?_⟩
  · intro more hpos
    rw [run_append]
    exact (runFrom_preserves (fun s => DistanceOk s ∧ 0 < s.g_currentDistance)
      step_distance_pos more (run acts) ⟨hok, hpos⟩).2
  · intro sensor
    have h := step_distanceOk (run acts) (Action.scan sensor) hok
    have h2 : (Radar_ScanCycle sensor (run acts)).state.g_currentDistance < 400 := h.2
    exact ⟨h.1, fun hc => by linarith⟩

/-- For C19: after a first sample of 350 cm, readings of 399.9 cm (a jump within
50) keep the filtered distance positive and below 400. -/
theorem filtered_distance_range_witness :
    0 < (run (List.replicate 10 (Action.scan 350) ++
      List.replicate 10 (Action.scan (3999 / 10)))).g_currentDistance ∧
    (run (List.replicate 10 (Action.scan 350) ++
      List.replicate 10 (Action.scan (3999 / 10)))).g_currentDistance < 400 :=
  ⟨(filtered_distance_range (List.replicate 10 (Action.scan 350))).2.2.1
      (List.replicate 10 (Action.scan (3999 / 10))) (by decide),
   (filtered_distance_range (List.replicate 10 (Action.scan 350) ++
      List.replicate 10 (Action.scan (3999 / 10)))).2.1.2⟩

/-! ## Cursor and counter parity -/

/-- On the sweep a step moves the angle by exactly 5. -/
theorem stepAngle_delta (a : Nat) (d : Int) (h : CursorOk a d) :
    (d = 1 → (stepAngle a d).1 = a + 5) ∧ (d = -1 → (stepAngle a d).1 + 5 = a) := by
  obtain ⟨h5, h | h⟩ := h
  · obtain ⟨hd, ha⟩ := h
    subst hd
    have hmod : (a + 5) % 65536 = a + 5 := Nat.mod_eq_of_lt (by omega)
    simp only [stepAngle, SCAN_STEP_ANGLE, SCAN_END_ANGLE, U16, hmod]
    split_ifs <;> simp <;> omega
  · obtain ⟨hd, ha5, ha⟩ := h
    subst hd
    have hmod : (a + 65536 - 5) % 65536 = a - 5 := by
      have : a + 65536 - 5 = (a - 5) + 65536 := by omega
      rw [this, Nat.add_mod_right]
      exact Nat.mod_eq_of_lt (by omega)
    simp only [stepAngle, SCAN_STEP_ANGLE, SCAN_START_ANGLE, U16, hmod]
    split_ifs <;> simp <;> omega

theorem stepAngle_parity (a c : Nat) (d : Int) (h : CursorOk a d)
    (hp : (a / 5 + c) % 2 = 0) : ((stepAngle a d).1 / 5 + (c + 1)) % 2 = 0 := by
  have hd := stepAngle_delta a d h
  obtain ⟨h5, h | h⟩ := h
  · have := hd.1 h.1
    omega
  · have := hd.2 h.1
    omega

theorem step_cursorParity (s : RadarState) (a : Action) (h : CursorParity s) :
    CursorParity (step s a) := by
  obtain ⟨hok, hle, hpar⟩ := h
  cases a with
  | scan sensor =>
    cases hen : s.g_scanEnabled with
    | false =>
      simp only [step, scanCycle_disabled sensor s hen]
      exact ⟨hok, hle, hpar⟩
    | true =>
      have hok' := stepAngle_cursorOk _ _ hok
      have hpar' := stepAngle_parity _ _ _ hok hpar
      by_cases h9 : s.g_distanceUpdateCounter < 9
      · simp only [step, scanCycle_quiet sensor s hen h9]
        exact ⟨hok', by show s.g_distanceUpdateCounter + 1 ≤ 9; omega, hpar'⟩
      · have hs : Sampling s := ⟨hen, by omega, by omega⟩
        simp only [step, scanCycle_sampling sensor s hs]
        refine ⟨hok', Nat.zero_le _, ?_⟩
        show ((stepAngle s.currentAngle s.direction).1 / 5 + 0) % 2 = 0
        have h9' : s.g_distanceUpdateCounter = 9 := by omega
        rw [h9'] at hpar'
        omega
  | key k t =>
    have hf := Key_ScanStep_frame k t s
    unfold CursorParity
    simp only [step, hf.2.2.2.1, hf.2.2.2.2.1, hf.2.2.2.2.2]
    exact ⟨hok, hle, hpar⟩
  | mqtt topic payload acq =>
    have hf := MQTT_SubCallback_frame topic payload acq s
    unfold CursorParity
    simp only [step, hf.2.2.2.1, hf.2.2.2.2.1, hf.2.2.2.2.2.1]
    exact ⟨hok, hle, hpar⟩

theorem run_cursorParity (acts : List Action) : CursorParity (run acts) :=
  runFrom_preserves CursorParity step_cursorParity acts initState
    (by unfold CursorParity CursorOk initState; simp)

/-- C20: in every run from the initial state, whatever the sensor readings
and however scanning is disabled and re-enabled, the cursor angle is a
multiple of 5 in 0..180, it is at least 5 whenever the next step subtracts (so
the unsigned subtraction never wraps), and `currentAngle / 5` plus the counter
is even; so every published sample has an angle that is an odd multiple of 5
between 5 and 175, and 0, 90 and 180 are never sampled. -/
theorem cursor_parity (acts : List Action) :
    (run acts).currentAngle % 5 = 0 ∧
    (0 ≤ (run acts).currentAngle ∧ (run acts).currentAngle ≤ 180) ∧
    (¬ (run acts).direction > 0 → SCAN_STEP_ANGLE ≤ (run acts).currentAngle) ∧
    ((run acts).currentAngle / 5 + (run acts).g_distanceUpdateCounter) % 2 = 0 ∧
    (∀ (sensor : ℚ) (d : RadarData_t),
      d ∈ published (Radar_ScanCycle sensor (run acts)).effects →
      d.angle % 10 = 5 ∧ 5 ≤ d.angle ∧ d.angle ≤ 175 ∧
      d.angle ≠ 0 ∧ d.angle ≠ 90 ∧ d.angle ≠ 180) := by
  obtain ⟨hok, hle, hpar⟩ := run_cursorParity acts
  have hok' := hok
  obtain ⟨h5, hdir⟩ := hok'
  refine ⟨h5, ⟨Nat.zero_le _, ?_⟩, ?_, hpar, ?_⟩
  · rcases hdir with h | h <;> omega
  · intro hneg
    unfold SCAN_STEP_ANGLE
    rcases hdir with h | h
    · omega
    · omega
  · intro sensor d hd
    cases hen : (run acts).g_scanEnabled with
    | false =>
      rw [scanCycle_disabled sensor _ hen] at hd
      exact absurd hd (List.not_mem_nil d)
    | true =>
      by_cases h9 : (run acts).g_distanceUpdateCounter < 9
      · rw [scanCycle_quiet sensor _ hen h9] at hd
        simp [published] at hd
      · have hs : Sampling (run acts) := ⟨hen, by omega, by omega⟩
        rw [scanCycle_sampling sensor _ hs] at hd
        simp only [published, List.mem_singleton] at hd
        have ha : d.angle = (run acts).currentAngle := by rw [hd]
        rw [ha]
        have h9' : (run acts).g_distanceUpdateCounter = 9 := by omega
        rw [h9'] at hpar
        have h180 : (run acts).currentAngle ≤ 180 := by
          rcases hdir with h | h <;> omega
        omega

/-- For C20: the first sample of a run is taken on the tenth cycle, at angle
135. -/
theorem cursor_parity_witness :
    (⟨20, 135, ALARM_WARNING, SYSTEM_SCANNING⟩ : RadarData_t) ∈
        published (Radar_ScanCycle 20 (run (List.replicate 9 (Action.scan 20)))).effects ∧
      (135 : Nat) % 10 = 5 :=
  ⟨by decide,
   ((cursor_parity (List.replicate 9 (Action.scan 20))).2.2.2.2 20
      ⟨20, 135, ALARM_WARNING, SYSTEM_SCANNING⟩ (by decide)).1⟩

/-! ## Stopped and disabled -/

/-- C21: in every shared state reachable from the initial state by scan
cycles, key presses and remote messages, each one atomic step,
`g_scanEnabled` is false if and only if `g_systemState` is `SYSTEM_STOPPED`;
so a telemetry payload, which is built only while `g_scanEnabled` is true,
never carries state code 1. -/
theorem stopped_iff_disabled (acts : List Action) :
    ((run acts).g_scanEnabled = false ↔ (run acts).g_systemState = SYSTEM_STOPPED) ∧
    (WiFi_MQTT_Report (run acts) = none ↔ (run acts).g_scanEnabled = false) ∧
    (∀ p : Telemetry, WiFi_MQTT_Report (run acts) = some p →
      p.state ≠ SystemState_t.toNat SYSTEM_STOPPED ∧ p.state ≠ 1 ∧
      (p.state = 0 ∨ p.state = 2)) := by
  have hco := (run_coherent acts).2
  refine ⟨hco, ?_, ?_⟩
  · unfold WiFi_MQTT_Report
    cases hen : (run acts).g_scanEnabled <;> simp
  · intro p hp
    unfold WiFi_MQTT_Report at hp
    cases hen : (run acts).g_scanEnabled with
    | false => simp [hen] at hp
    | true =>
      simp only [hen, if_true, Option.some.injEq] at hp
      have hns : (run acts).g_systemState ≠ SYSTEM_STOPPED := by
        intro hc
        have := hco.mpr hc
        rw [hen] at this
        exact Bool.noConfusion this
      subst hp
      cases hsys : (run acts).g_systemState with
      | SYSTEM_SCANNING => simp [SystemState_t.toNat]
      | SYSTEM_STOPPED => exact absurd hsys hns
      | SYSTEM_ALARM => simp [SystemState_t.toNat]

/-- For C21: after ten cycles reading 5 cm the payload carries state 2; after
a STOP no payload is built; after a START the payload carries state 0. -/
theorem stopped_iff_disabled_witness :
    WiFi_MQTT_Report (run (List.replicate 10 (Action.scan 5))) = some ⟨135, 5, 2⟩ ∧
    WiFi_MQTT_Report (run (List.replicate 10 (Action.scan 5) ++
      [Action.mqtt MQTT_TOPIC_CONTROL "STOP".toList true])) = none ∧
    (⟨135, 5, 0⟩ : Telemetry).state ≠ 1 :=
  ⟨by decide,
   (stopped_iff_disabled (List.replicate 10 (Action.scan 5) ++
      [Action.mqtt MQTT_TOPIC_CONTROL "STOP".toList true])).2.1.mpr (by decide),
   ((stopped_iff_disabled (List.replicate 10 (Action.scan 5) ++
      [Action.mqtt MQTT_TOPIC_CONTROL "STOP".toList true,
       Action.mqtt MQTT_TOPIC_CONTROL "START".toList true])).2.2 ⟨135, 5, 0⟩ (by decide)).2.1⟩

/-! ## STOP before START -/

/-- C22: STOP takes precedence over START: for every payload on the control
topic that contains both "STOP" and "START", in either order, the callback
does exactly what it does for STOP: `g_scanEnabled` false, `SYSTEM_STOPPED`,
the actuator commanded to 90, and nothing else changed. -/
theorem mqtt_stop_precedence (topic payload : List Char) (acquired : Bool) (s : RadarState)
    (htopic : "control".toList <:+: topic)
    (hstop : "STOP".toList <:+: payload)
    (_hstart : "START".toList <:+: payload) :
    MQTT_SubCallback topic payload acquired s =
      ⟨0, { s with g_scanEnabled := false, g_systemState := SYSTEM_STOPPED },
        [Effect.set_sg90_angle 90]⟩ ∧
    (MQTT_SubCallback topic payload acquired s).state.g_scanEnabled = false ∧
    (MQTT_SubCallback topic payload acquired s).state.g_systemState = SYSTEM_STOPPED ∧
    (MQTT_SubCallback topic payload acquired s).effects = [Effect.set_sg90_angle 90] := by
  have ht := (strstr_iff_substring _ _).mpr htopic
  have hp := (strstr_iff_substring _ _).mpr hstop
  have h : MQTT_SubCallback topic payload acquired s =
      ⟨0, { s with g_scanEnabled := false, g_systemState := SYSTEM_STOPPED },
        [Effect.set_sg90_angle 90]⟩ := by
    unfold MQTT_SubCallback
    rw [if_pos ht]
    exact if_pos hp
  rw [h]
  exact ⟨rfl, rfl, rfl, rfl⟩

/-- For C22: "START STOP" and "STOP START" both stop a running scan. -/
theorem mqtt_stop_precedence_witness :
    (MQTT_SubCallback MQTT_TOPIC_CONTROL "START STOP".toList true initState).state.g_scanEnabled
      = false ∧
    (MQTT_SubCallback MQTT_TOPIC_CONTROL "STOP START".toList true initState).state.g_systemState
      = SYSTEM_STOPPED :=
  ⟨(mqtt_stop_precedence MQTT_TOPIC_CONTROL "START STOP".toList true initState
      ⟨"hi3861/radar/".toList, [], rfl⟩ ⟨"START ".toList, [], rfl⟩
      ⟨[], " STOP".toList, rfl⟩).2.1,
   (mqtt_stop_precedence MQTT_TOPIC_CONTROL "STOP START".toList true initState
      ⟨"hi3861/radar/".toList, [], rfl⟩ ⟨[], " START".toList, rfl⟩
      ⟨"STOP ".toList, [], rfl⟩).2.2.1⟩

/-! ## Brightness payload -/

theorem ParseBrightnessPayload_loop_range (p : List Char) :
    ∀ (n i : Nat) (v d : Int), 0 ≤ v → v ≤ 100 →
      0 ≤ (ParseBrightnessPayload_loop p n i v d).1 ∧
      (ParseBrightnessPayload_loop p n i v d).1 ≤ 100 ∧
      d ≤ (ParseBrightnessPayload_loop p n i v d).2 := by
  intro n
  induction n with
  | zero =>
    intro i v d h0 h100
    exact ⟨h0, h100, le_refl d⟩
  | succ n ih =>
    intro i v d h0 h100
    have h48 : (('0'.toNat : Nat) : Int) = 48 := by decide
    have h57 : (('9'.toNat : Nat) : Int) = 57 := by decide
    unfold ParseBrightnessPayload_loop
    simp only [h48, h57]
    split_ifs with hc hbig
    · exact ⟨h0, h100, le_refl d⟩
    · exact ⟨by norm_num, le_refl _, by omega⟩
    · have hc1 : ¬ ((p.getD i (Char.ofNat 0)).toNat : Int) < 48 := fun h => hc (Or.inl h)
      have hstep := ih (i + 1) (v * 10 + (((p.getD i (Char.ofNat 0)).toNat : Int) - 48))
        (d + 1) (by omega) (by omega)
      exact ⟨hstep.1, hstep.2.1, by omega⟩

theorem ParseBrightnessPayload_loop_take (p : List Char) :
    ∀ (n i : Nat) (v d : Int), i + n ≤ 4 →
      ParseBrightnessPayload_loop (p.take 4) n i v d = ParseBrightnessPayload_loop p n i v d := by
  intro n
  induction n with
  | zero => intro i v d _; rfl
  | succ n ih =>
    intro i v d hi
    have hget : (p.take 4).getD i (Char.ofNat 0) = p.getD i (Char.ofNat 0) := by
      rw [List.getD_eq_getElem?_getD, List.getD_eq_getElem?_getD,
        List.getElem?_take_of_lt (by omega)]
    have hrec : ∀ v1 d1 : Int, ParseBrightnessPayload_loop (p.take 4) n (i + 1) v1 d1 =
        ParseBrightnessPayload_loop p n (i + 1) v1 d1 := fun v1 d1 =>
      ih (i + 1) v1 d1 (by omega)
    unfold ParseBrightnessPayload_loop
    simp only [hget, hrec]

/-- C23 does not hold of the code: the loop runs while `i < 4`, so a fourth
digit is read after three digits that make a value of at most 100. "050" and
"0501" agree on their first three bytes and give 50 and 100; "0005" and "0007"
give 5 and 7. What does hold: the result depends only on the first four
bytes, it is -1 or within 0..100, and it is -1 exactly when the first byte is
not an ASCII digit. -/
theorem ParseBrightnessPayload_reads_fourth_byte :
    List.take 3 "050".toList = List.take 3 "0501".toList ∧
    ParseBrightnessPayload (some "050".toList) = 50 ∧
    ParseBrightnessPayload (some "0501".toList) = 100 ∧
    List.take 3 "0005".toList = List.take 3 "0007".toList ∧
    ParseBrightnessPayload (some "0005".toList) = 5 ∧
    ParseBrightnessPayload (some "0007".toList) = 7 ∧
    ParseBrightnessPayload none = -1 ∧
    (∀ p q : List Char, List.take 4 p = List.take 4 q →
      ParseBrightnessPayload (some p) = ParseBrightnessPayload (some q)) ∧
    (∀ p : List Char, ParseBrightnessPayload (some p) = -1 ∨
      (0 ≤ ParseBrightnessPayload (some p) ∧ ParseBrightnessPayload (some p) ≤ 100)) ∧
    (∀ p : List Char, ParseBrightnessPayload (some p) = -1 ↔
      ((p.getD 0 (Char.ofNat 0)).toNat < '0'.toNat ∨
        (p.getD 0 (Char.ofNat 0)).toNat > '9'.toNat)) := by
  have hval : ∀ p : List Char, ParseBrightnessPayload (some p) =
      if (ParseBrightnessPayload_loop p 4 0 0 0).2 = 0 then -1
      else (ParseBrightnessPayload_loop p 4 0 0 0).1 := by
    intro p
    have hr := ParseBrightnessPayload_loop_range p 4 0 0 0 (le_refl 0) (by norm_num)
    unfold ParseBrightnessPayload
    simp only
    split_ifs <;> first | rfl | omega
  refine ⟨by decide, by decide, by decide, by decide, by decide, by decide, rfl, ?_, ?_, ?_⟩
  · intro p q hpq
    rw [hval p, hval q, ← ParseBrightnessPayload_loop_take p 4 0 0 0 (le_refl 4),
      ← ParseBrightnessPayload_loop_take q 4 0 0 0 (le_refl 4), hpq]
  · intro p
    have hr := ParseBrightnessPayload_loop_range p 4 0 0 0 (le_refl 0) (by norm_num)
    rw [hval p]
    split_ifs
    · exact Or.inl rfl
    · exact Or.inr ⟨hr.1, hr.2.1⟩
  · intro p
    have hr := ParseBrightnessPayload_loop_range p 4 0 0 0 (le_refl 0) (by norm_num)
    have h48 : ('0'.toNat : Nat) = 48 := by decide
    have h57 : ('9'.toNat : Nat) = 57 := by decide
    rw [hval p, h48, h57]
    by_cases hc : (p.getD 0 (Char.ofNat 0)).toNat < 48 ∨ (p.getD 0 (Char.ofNat 0)).toNat > 57
    · have hl : ParseBrightnessPayload_loop p 4 0 0 0 = (0, 0) := by
        have hc2 : ((p.getD 0 (Char.ofNat 0)).toNat : Int) < (('0'.toNat : Nat) : Int) ∨
            ((p.getD 0 (Char.ofNat 0)).toNat : Int) > (('9'.toNat : Nat) : Int) := by
          rw [h48, h57]; omega
        unfold ParseBrightnessPayload_loop
        simp only [if_pos hc2]
      rw [hl]
      show (if (0 : Int) = 0 then (-1 : Int) else 0) = -1 ↔ _
      rw [if_pos rfl]
      exact ⟨fun _ => hc, fun _ => rfl⟩
    · have hc2 : ¬ (((p.getD 0 (Char.ofNat 0)).toNat : Int) < (('0'.toNat : Nat) : Int) ∨
          ((p.getD 0 (Char.ofNat 0)).toNat : Int) > (('9'.toNat : Nat) : Int)) := by
        rw [h48, h57]; omega
      have hsmall : ¬ ((0 : Int) * 10 +
          (((p.getD 0 (Char.ofNat 0)).toNat : Int) - (('0'.toNat : Nat) : Int)) > 100) := by
        rw [h48]; omega
      have hl : ParseBrightnessPayload_loop p 4 0 0 0 =
          ParseBrightnessPayload_loop p 3 1
            (0 * 10 + (((p.getD 0 (Char.ofNat 0)).toNat : Int) - (('0'.toNat : Nat) : Int)))
            (0 + 1) := by
        conv_lhs => unfold ParseBrightnessPayload_loop
        simp only [if_neg hc2, if_neg hsmall]
      have hr3 := ParseBrightnessPayload_loop_range p 3 1
        (0 * 10 + (((p.getD 0 (Char.ofNat 0)).toNat : Int) - (('0'.toNat : Nat) : Int)))
        (0 + 1) (by rw [h48]; omega) (by rw [h48]; omega)
      rw [← hl] at hr3
      have hd : (ParseBrightnessPayload_loop p 4 0 0 0).2 ≠ 0 := by omega
      rw [if_neg hd]
      constructor
      · intro h; omega
      · intro h; exact absurd h hc

end Radar
